import Mathlib

/-!
Verification development for the multi-platform housing scraper
(`multi_platform_housing_scraper.py`, `auto_verification.py`).

The Python source is shallowly embedded: pure string/regex computations are
translated to executable Lean functions over `List Char` / `String`; DOM
queries performed through BeautifulSoup (`select_one`, `select`, `.text`)
are modelled as abstract per-node query functions that may raise (an
`Except` result), since the library is outside the repository; the page
loops are modelled as state-passing functions over an environment that
supplies the result of each HTTP GET, each `handle_verification` call and
each `random.uniform(1,3)` draw, recording the observable events (fetches,
sleeps, verification prompts) in a trace.
-/

/-! ## Python string primitives -/

/-- Python `\s` for the whitespace characters that occur in this code's
inputs (space, tab, newline, carriage return, vertical tab, form feed). -/
def pyIsSpace (c : Char) : Bool :=
  c == ' ' || c == '\t' || c == '\n' || c == '\r' || c == Char.ofNat 11 || c == Char.ofNat 12

/-- Python `str.strip()`: drop whitespace from both ends. -/
def pyStripList (cs : List Char) : List Char :=
  ((cs.dropWhile pyIsSpace).reverse.dropWhile pyIsSpace).reverse

def pyStrip (s : String) : String :=
  String.mk (pyStripList s.data)

/-- Python `re.sub(r'\s+', '', s)`: remove every whitespace character. -/
def removeWhitespace (s : String) : String :=
  String.mk (s.data.filter (fun c => !pyIsSpace c))

/-- Whether `pat` occurs at the head of `cs`. -/
def leadEq : List Char → List Char → Bool
  | [], _ => true
  | _ :: _, [] => false
  | a :: as, b :: bs => a == b && leadEq as bs

/-- Whether `sub` occurs somewhere in `cs` (Python `sub in s`). -/
def listContainsSub (sub : List Char) : List Char → Bool
  | [] => sub.isEmpty
  | c :: rest => leadEq sub (c :: rest) || listContainsSub sub rest

/-- Python `sub in s` on strings. -/
def strContains (s sub : String) : Bool :=
  listContainsSub sub.data s.data

/-- Numeric value of a decimal digit string (Python `int(s)` on a string of
digits; leading zeros allowed). -/
def natOfDigits (cs : List Char) : Nat :=
  cs.foldl (fun acc c => acc * 10 + (c.toNat - '0'.toNat)) 0

def natOfString (s : String) : Nat :=
  natOfDigits s.data

/-! ## Regex models

Each Python `re.search` used by the scraper is translated to a function
that scans positions left to right and, at each position, matches the
pattern literally; the patterns involved never need backtracking (a greedy
digit run is always followed by a non-digit requirement), so this
implements Python's leftmost-match semantics for them. -/

/-- Longest leading digit run of `cs` and the remainder. -/
def digitRun (cs : List Char) : List Char × List Char :=
  match cs with
  | [] => ([], [])
  | c :: rest =>
    if c.isDigit then
      let p := digitRun rest
      (c :: p.1, p.2)
    else ([], cs)

/-- Drop a (possibly empty) run of whitespace: `\s*`. -/
def skipSpaces (cs : List Char) : List Char :=
  cs.dropWhile pyIsSpace

/-- Match `(\d+)\s*室\s*(\d+)\s*厅` at the start of `cs`, returning the two
digit-string groups. -/
def matchRoomAt (cs : List Char) : Option (List Char × List Char) :=
  let p1 := digitRun cs
  if p1.1.isEmpty then none
  else
    match skipSpaces p1.2 with
    | '室' :: r2 =>
      let p2 := digitRun (skipSpaces r2)
      if p2.1.isEmpty then none
      else
        match skipSpaces p2.2 with
        | '厅' :: _ => some (p1.1, p2.1)
        | _ => none
    | _ => none

/-- `re.search(r'(\d+)\s*室\s*(\d+)\s*厅', text)` (groups as digit strings). -/
def roomSearch : List Char → Option (List Char × List Char)
  | [] => none
  | c :: rest =>
    match matchRoomAt (c :: rest) with
    | some r => some r
    | none => roomSearch rest

/-- Match `(\d+)室(\d+)厅` (no `\s*`) at the start of `cs`. -/
def matchRoomNSAt (cs : List Char) : Option (List Char × List Char) :=
  let p1 := digitRun cs
  if p1.1.isEmpty then none
  else
    match p1.2 with
    | '室' :: r2 =>
      let p2 := digitRun r2
      if p2.1.isEmpty then none
      else
        match p2.2 with
        | '厅' :: _ => some (p1.1, p2.1)
        | _ => none
    | _ => none

/-- `re.search(r'(\d+)室(\d+)厅', text)` as used by `scrape_58`. -/
def roomSearchNS : List Char → Option (List Char × List Char)
  | [] => none
  | c :: rest =>
    match matchRoomNSAt (c :: rest) with
    | some r => some r
    | none => roomSearchNS rest

/-- Try to match `(\d+)[厅厘]` at the start of `cs`. -/
def matchTingAt (cs : List Char) : Option (List Char) :=
  let p := digitRun cs
  if p.1.isEmpty then none
  else
    match p.2 with
    | c :: _ => if c == '厅' || c == '厘' then some p.1 else none
    | [] => none

/-- The `.*?(\d+)[厅厘]` tail: advance minimally over non-newline characters
until `(\d+)[厅厘]` matches. -/
def scanTing : List Char → Option (List Char)
  | [] => none
  | c :: rest =>
    match matchTingAt (c :: rest) with
    | some d => some d
    | none => if c == '\n' then none else scanTing rest

/-- Match `(\d+)[室].*?(\d+)[厅厘]` at the start of `cs`. -/
def matchRoom2At (cs : List Char) : Option (List Char × List Char) :=
  let p1 := digitRun cs
  if p1.1.isEmpty then none
  else
    match p1.2 with
    | '室' :: r2 =>
      match scanTing r2 with
      | some d2 => some (p1.1, d2)
      | none => none
    | _ => none

/-- `re.search(r'(\d+)[室].*?(\d+)[厅厘]', text)`. -/
def roomSearch2 : List Char → Option (List Char × List Char)
  | [] => none
  | c :: rest =>
    match matchRoom2At (c :: rest) with
    | some r => some r
    | none => roomSearch2 rest

/-- Character class `[\d\.]`. -/
def isDigitOrDot (c : Char) : Bool :=
  c.isDigit || c == '.'

/-- Character class `[万元/平元/㎡]` (the set of its characters). -/
def isPriceUnitChar (c : Char) : Bool :=
  c == '万' || c == '元' || c == '/' || c == '平' || c == '㎡'

/-- Match `([\d\.]+)([万元/平元/㎡]*)` at the start of `cs`. -/
def matchPriceAt (cs : List Char) : Option (List Char × List Char) :=
  let g1 := cs.takeWhile isDigitOrDot
  if g1.isEmpty then none
  else some (g1, (cs.dropWhile isDigitOrDot).takeWhile isPriceUnitChar)

/-- `re.search(r'([\d\.]+)([万元/平元/㎡]*)', s)`: value and unit groups. -/
def priceSearch : List Char → Option (List Char × List Char)
  | [] => none
  | c :: rest =>
    match matchPriceAt (c :: rest) with
    | some r => some r
    | none => priceSearch rest

/-- Match `\d+\.?\d*` greedily at the start of `cs`, returning the group
and the remainder; fails if no leading digit. -/
def numGroupAt (cs : List Char) : Option (List Char × List Char) :=
  let p1 := digitRun cs
  if p1.1.isEmpty then none
  else
    match p1.2 with
    | '.' :: r2 =>
      let p2 := digitRun r2
      some (p1.1 ++ '.' :: p2.1, p2.2)
    | r => some (p1.1, r)

/-- Match `(\d+\.?\d*)\s*C` at the start, where `C` is a character class. -/
def matchAreaAt (cls : Char → Bool) (cs : List Char) : Option (List Char) :=
  match numGroupAt cs with
  | none => none
  | some (g, rest) =>
    match skipSpaces rest with
    | c :: _ => if cls c then some g else none
    | [] => none

/-- Character class `[平㎡]`. -/
def isPingChar (c : Char) : Bool :=
  c == '平' || c == '㎡'

/-- Character class `[平㎡平米平方米]` = `{平, ㎡, 米, 方}`. -/
def isPingChar2 (c : Char) : Bool :=
  c == '平' || c == '㎡' || c == '米' || c == '方'

/-- `re.search(r'(\d+\.?\d*)\s*[平㎡]', s)` (group 1). -/
def areaSearch1 : List Char → Option (List Char)
  | [] => none
  | c :: rest =>
    match matchAreaAt isPingChar (c :: rest) with
    | some g => some g
    | none => areaSearch1 rest

/-- `re.search(r'(\d+\.?\d*)\s*[平㎡平米平方米]', s)` (group 1). -/
def areaSearch2 : List Char → Option (List Char)
  | [] => none
  | c :: rest =>
    match matchAreaAt isPingChar2 (c :: rest) with
    | some g => some g
    | none => areaSearch2 rest

/-- Match `(\d+\.?\d*)平米` at the start of `cs`, returning the WHOLE match
(`group(0)`), as used by `scrape_58`. -/
def matchArea58At (cs : List Char) : Option (List Char) :=
  match numGroupAt cs with
  | none => none
  | some (g, rest) =>
    match rest with
    | '平' :: '米' :: _ => some (g ++ ['平', '米'])
    | _ => none

/-- `re.search(r'(\d+\.?\d*)平米', s)` returning `group(0)`. -/
def areaSearch58 : List Char → Option (List Char)
  | [] => none
  | c :: rest =>
    match matchArea58At (c :: rest) with
    | some g => some g
    | none => areaSearch58 rest

/-- Exactly four leading digits. -/
def take4Digits (cs : List Char) : Option (List Char × List Char) :=
  match cs with
  | c1 :: c2 :: c3 :: c4 :: rest =>
    if c1.isDigit && c2.isDigit && c3.isDigit && c4.isDigit then
      some ([c1, c2, c3, c4], rest)
    else none
  | _ => none

/-- Match `(\d{4})\s*年` at the start of `cs` (group 1).  The variant
`(\d{4})\s*年[建筑建成]?` used on the full node text has the same matches
and the same group 1, since the trailing class is optional. -/
def matchYearAt (cs : List Char) : Option (List Char) :=
  match take4Digits cs with
  | none => none
  | some (g, rest) =>
    match skipSpaces rest with
    | '年' :: _ => some g
    | _ => none

/-- `re.search(r'(\d{4})\s*年', s)` (group 1). -/
def yearSearch : List Char → Option (List Char)
  | [] => none
  | c :: rest =>
    match matchYearAt (c :: rest) with
    | some g => some g
    | none => yearSearch rest

/-- Match `(\d{4})年` (no `\s*`) at the start of `cs`, as in `scrape_58`. -/
def matchYearNSAt (cs : List Char) : Option (List Char) :=
  match take4Digits cs with
  | none => none
  | some (g, rest) =>
    match rest with
    | '年' :: _ => some g
    | _ => none

/-- `re.search(r'(\d{4})年', s)` (group 1). -/
def yearSearchNS : List Char → Option (List Char)
  | [] => none
  | c :: rest =>
    match matchYearNSAt (c :: rest) with
    | some g => some g
    | none => yearSearchNS rest

/-- `[东西南北中]`. -/
def isDirMid (c : Char) : Bool :=
  c == '东' || c == '西' || c == '南' || c == '北' || c == '中'

/-- `[东西南北]`. -/
def isDir (c : Char) : Bool :=
  c == '东' || c == '西' || c == '南' || c == '北'

/-- `[a-zA-Z0-9]`. -/
def isAlnum (c : Char) : Bool :=
  c.isAlpha || c.isDigit

/-- Greedy `.{2,4}` followed by `suffix`: try 4, then 3, then 2 non-newline
characters before the suffix; return the whole alternative's match. -/
def matchDotsThen (suffix : List Char) (cs : List Char) : Option (List Char) :=
  let tryLen : Nat → Option (List Char) := fun k =>
    let pre := cs.take k
    if pre.length == k && pre.all (fun c => c != '\n') && leadEq suffix (cs.drop k) then
      some (pre ++ suffix)
    else none
  match tryLen 4 with
  | some m => some m
  | none =>
    match tryLen 3 with
    | some m => some m
    | none => tryLen 2

/-- Match the location alternation
`([东西南北中]部|[东西南北]\d+|[a-zA-Z0-9]+区|.{2,4}路|[a-zA-Z0-9]+街道|.{2,4}小区)`
at the start of `cs` (alternatives tried left to right), returning
`group(0)`. -/
def matchLocAt (cs : List Char) : Option (List Char) :=
  let alt1 :=
    match cs with
    | a :: '部' :: _ => if isDirMid a then some [a, '部'] else none
    | _ => none
  match alt1 with
  | some m => some m
  | none =>
    let alt2 :=
      match cs with
      | a :: rest =>
        if isDir a then
          let p := digitRun rest
          if p.1.isEmpty then none else some (a :: p.1)
        else none
      | [] => none
    match alt2 with
    | some m => some m
    | none =>
      let an := cs.takeWhile isAlnum
      let alt3 :=
        if an.isEmpty then none
        else
          match cs.dropWhile isAlnum with
          | '区' :: _ => some (an ++ ['区'])
          | _ => none
      match alt3 with
      | some m => some m
      | none =>
        match matchDotsThen ['路'] cs with
        | some m => some m
        | none =>
          let alt5 :=
            if an.isEmpty then none
            else
              match cs.dropWhile isAlnum with
              | '街' :: '道' :: _ => some (an ++ ['街', '道'])
              | _ => none
          match alt5 with
          | some m => some m
          | none => matchDotsThen ['小', '区'] cs

/-- `re.search` for the location pattern (`group(0)` of the first match). -/
def locSearch : List Char → Option (List Char)
  | [] => none
  | c :: rest =>
    match matchLocAt (c :: rest) with
    | some m => some m
    | none => locSearch rest

/-! ## ChallengeDetector: `MultiPlatformHousingScraper.check_verification` -/

def verification_keywords : List String :=
  ["验证码", "人机验证", "安全验证", "滑动验证", "captcha", "verify",
   "verification", "security check", "人机识别", "拖动滑块", "拼图",
   "请完成下列验证", "请进行验证", "安全检查", "安全认证", "请证明",
   "滑动完成拼图", "rotate", "旋转", "点击", "滑块", "slider"]

def verification_elements : List String :=
  ["id=\x22captcha\x22", "class=\x22captcha\x22", "id=\x22verify\x22", "class=\x22verify\x22",
   "nc_scale", "nc-lang-cnt", "class=\x22slider\x22", "id=\x22slider\x22",
   "class=\x22verification\x22", "id=\x22verification\x22", "class=\x22validate\x22",
   "geetest", "class=\x22gt_slider\x22", "class=\x22JDJRV-slide\x22", "yidun_slider",
   "class=\x22shumei_captcha\x22", "class=\x22vaptcha\x22", "网易易盾", "tencent_captcha",
   "name=\x22captcha\x22", "class=\x22puzzle\x22", "class=\x22antirobot\x22", "callback.58.com/antibot"]

def verification_urls : List String :=
  ["callback.58.com/antibot", "verify.anjuke.com", "captcha", "verify",
   "security-check", "validate.58.com"]

def normal_content_markers : List String :=
  ["房源", "出租", "出售", "价格", "平米", "户型", "小区",
   "房屋", "中介", "联系", "地址", "楼层", "二手房", "租房"]

/-- `MultiPlatformHousingScraper.check_verification`: keyword scan, HTML
element scan, URL scan, then the short-content heuristic.  Each `for`
loop that `return True`s on the first hit is an `any`. -/
def check_verification (response_text : String) : Bool :=
  if verification_keywords.any (fun k => strContains response_text k) then true
  else if verification_elements.any (fun e => strContains response_text e) then true
  else if verification_urls.any (fun u => strContains response_text u) then true
  else if response_text.length < 2000 &&
      (strContains response_text "58.com" || strContains response_text "anjuke.com") then
    let missing := normal_content_markers.filter (fun m => !strContains response_text m)
    -- Python: `len(missing_markers) > len(normal_content_markers) / 2` (true division)
    if 2 * missing.length > normal_content_markers.length then true else false
  else false

/-! ## SelectorProfileResolver: `detect_house_item_selector`

The parsed document (`soup`) is modelled as the function
`String → List α` giving, for each CSS selector, the nodes it matches
(`soup.select`); `detect_house_item_selector` only consumes match counts,
so it is stated over a count function `String → Nat`. -/

def anjuke_new_house_selectors : List String :=
  [".item-mod", ".key-list .item", ".anjuke-result-box .anjuke-result-item",
   ".property-item", ".loupan-item", ".building-item", ".house-item",
   ".card", ".result-item", "[id*=\x22loupan\x22] .item", ".new-house-item",
   ".items-list .item", ".list-content > div", ".list > li", ".item",
   "[data-list-index]", ".list-cell", ".list-item"]

def anjuke_used_house_selectors : List String :=
  [".list-item", ".houselist-item", ".house-cell", ".houseCard",
   ".house-item", ".property-item", ".sale-item", ".list-content > div",
   ".list > li", ".house-details", "[data-list-index]", "div[data-component=\x22item\x22]",
   ".list-cell", ".items-list .item", ".item"]

def tc58_new_house_selectors : List String :=
  [".key-list .item", ".house-list-item", ".build-list-item",
   ".list > li", ".loupan-list > li", ".newhouse-item", ".list-cell",
   ".list-item", "[class*=\x22list\x22] > [class*=\x22item\x22]"]

def tc58_used_house_selectors : List String :=
  [".house-cell", ".house-cell-list > li", ".house-item",
   ".ershou-item", ".list > li", ".house-list-item", ".list-cell",
   ".property-item", ".item"]

def beike_new_house_selectors : List String :=
  [".resblock-list-wrapper > li", ".resblock-list-container .resblock-list",
   ".resblock-item", ".loupan-item", ".new-house-item", ".house-item",
   ".key-list > .item", ".item"]

def beike_used_house_selectors : List String :=
  [".sellListContent > li", ".VIEWLIST", ".house-item",
   ".item-card", ".ershoufang-item", ".house-cell", ".key-list > .item",
   ".item"]

def lianjia_new_house_selectors : List String :=
  [".resblock-list-container .resblock-list", ".resblock-list-module",
   ".newhouse-list .house-item", ".house-cell", ".loupan-item",
   ".key-list > .item", ".item"]

def lianjia_used_house_selectors : List String :=
  [".sellListContent > li", ".main-house-list .item", ".house-item",
   ".list-item", ".ershoufang-item", ".key-list > .item", ".item"]

def general_selectors : List String :=
  [".list-content > div", ".list > li", ".items-list > div",
   "[class*=\x22list\x22] > [class*=\x22item\x22]", "div[data-index]", "div[data-list-index]",
   "div[data-id]", ".content > div", ".content > li"]

/-- The `if site == ... / if house_type == '新房'` dispatch choosing the
candidate list (`selectors = []` for an unknown site). -/
def profileSelectors (site house_type : String) : List String :=
  if site == "anjuke" then
    (if house_type == "新房" then anjuke_new_house_selectors else anjuke_used_house_selectors)
  else if site == "58" then
    (if house_type == "新房" then tc58_new_house_selectors else tc58_used_house_selectors)
  else if site == "beike" then
    (if house_type == "新房" then beike_new_house_selectors else beike_used_house_selectors)
  else if site == "lianjia" then
    (if house_type == "新房" then lianjia_new_house_selectors else lianjia_used_house_selectors)
  else []

/-- One candidate-scanning loop of `detect_house_item_selector`:
keeps `max_items`/`best_selector`, and on each strict improvement checks
the confidence threshold `t` (`5` for the profile phase, `3` for the
general phase); `.inl sel` is the loop's early `return sel`. -/
def scanSelectors (soup : String → Nat) (t : Nat) :
    List String → Nat → Option String → Sum String (Nat × Option String)
  | [], maxItems, best => .inr (maxItems, best)
  | sel :: rest, maxItems, best =>
    let n := soup sel
    if n > maxItems then
      if n ≥ t then .inl sel
      else scanSelectors soup t rest n (some sel)
    else scanSelectors soup t rest maxItems best

/-- The catch-all selector returned when nothing matched at all. -/
def catchAllSelector : String := "div, li, .item, .cell"

/-- The generic-selector phase of `detect_house_item_selector`, entered
with the `max_items`/`best_selector` carried over from the profile phase. -/
def detectGeneral (soup : String → Nat) (maxItems : Nat) (best : Option String) : String :=
  match scanSelectors soup 3 general_selectors maxItems best with
  | .inl sel => sel
  | .inr (m, b) =>
    match b with
    | some bsel => if 0 < m then bsel else catchAllSelector
    | none => catchAllSelector

/-- `MultiPlatformHousingScraper.detect_house_item_selector`. -/
def detect_house_item_selector (soup : String → Nat) (site house_type : String) : String :=
  match scanSelectors soup 5 (profileSelectors site house_type) 0 none with
  | .inl sel => sel
  | .inr (maxItems, best) =>
    match best with
    | some bsel => if 0 < maxItems then bsel else detectGeneral soup maxItems best
    | none => detectGeneral soup maxItems best

/-! Spec-side definitions for claim C4, written from the specification's
selection rule (first candidate whose count meets the confident threshold;
otherwise the highest count among candidates with at least one match,
ties to the earliest). -/

/-- Spec wording: the first candidate whose match count reaches `t`. -/
def firstConfident (soup : String → Nat) (t : Nat) : List String → Option String
  | [] => none
  | s :: rest => if t ≤ soup s then some s else firstConfident soup t rest

/-- Maximum match count over a candidate list. -/
def maxCount (soup : String → Nat) (l : List String) : Nat :=
  l.foldr (fun s m => max (soup s) m) 0

/-- Spec wording: the candidate with the highest match count, ties going
to the earliest candidate. -/
def bestBySpec (soup : String → Nat) (l : List String) : Option String :=
  l.find? (fun s => soup s == maxCount soup l)

/-- Spec wording of the two-tier selection rule over one candidate list. -/
def specResolve (soup : String → Nat) (l : List String) : Option String :=
  match firstConfident soup 5 l with
  | some sel => some sel
  | none => bestBySpec soup l

/-! ## FieldExtractor: the per-item loop of `scrape_anjuke`

A listing-item node is abstract DOM data: `selOne` models
`item.select_one(sel)` returning the element's `.text` (or `none` when no
element matches), and may raise; `linkTexts` models the texts of
`item.select('a')`; `text` models `item.text`. -/

structure AnjukeItem where
  selOne : String → Except String (Option String)
  linkTexts : List String
  text : String

/-- Python truthiness of an optional integer parameter
(`None` and `0` are falsy). -/
def truthy : Option Nat → Bool
  | none => false
  | some n => n != 0

/-- A `for sel in [...]: elem = select_one(sel); if elem: ... break` chain:
the first selector whose element exists gives its text. -/
def chainSelect (q : String → Except String (Option String)) :
    List String → Except String (Option String)
  | [] => pure none
  | s :: rest => do
    match ← q s with
    | some t => pure (some t)
    | none => chainSelect q rest

def anjuke_name_selectors : List String :=
  [".items-name", ".loupan-name", ".title", "h3", ".name", ".building-name",
   "[class*=\x22name\x22]", "a", ".info", ".info-title", ".house-title"]

def anjuke_price_selectors : List String :=
  [".price", ".money", ".total-price", ".average", ".unit-price",
   "[class*=\x22price\x22]", ".value", ".price-det", ".num"]

def anjuke_loc_selectors : List String :=
  [".address", ".loc", ".location", ".position", "[class*=\x22address\x22]",
   "[class*=\x22location\x22]", ".address-text", ".region", ".area-text"]

def anjuke_region_selectors : List String :=
  [".region", ".area", ".district", "[class*=\x22region\x22]", "[class*=\x22district\x22]"]

def anjuke_type_selectors : List String :=
  [".house-type", ".huxing", ".type", ".rooms", "[class*=\x22type\x22]",
   "[class*=\x22huxing\x22]", ".layout", ".room", ".house-txt"]

def anjuke_area_selectors : List String :=
  [".area", ".square", ".size", "[class*=\x22area\x22]", "[class*=\x22square\x22]",
   ".house-area", ".area-num"]

def anjuke_year_selectors : List String :=
  [".year", ".time", "[class*=\x22year\x22]", "[class*=\x22build\x22]", ".tag"]

/-- Fallback for the name: first link whose text is non-empty and whose
stripped text is longer than 5. -/
def firstLongLink : List String → Option String
  | [] => none
  | t :: rest =>
    if t != "" && (pyStrip t).length > 5 then some (pyStrip t)
    else firstLongLink rest

/-- Name extraction (selector chain, link fallback, then `"未知"`). -/
def anjuke_name (item : AnjukeItem) : Except String String := do
  let ns ← chainSelect item.selOne anjuke_name_selectors
  match ns with
  | some t => pure (pyStrip t)
  | none =>
    match firstLongLink item.linkTexts with
    | some t => pure t
    | none => pure "未知"

/-- Price extraction: selector chain, whitespace removal, then the
`([\d\.]+)([万元/平元/㎡]*)` cleanup (default unit `元/平`). -/
def anjuke_price (item : AnjukeItem) : Except String String := do
  let ps ← chainSelect item.selOne anjuke_price_selectors
  let price_text := match ps with
    | some t => pyStrip t
    | none => "未知"
  if price_text != "未知" then
    let cleaned := removeWhitespace price_text
    match priceSearch cleaned.data with
    | some (v, u) =>
      pure (String.mk v ++ (if u.isEmpty then "元/平" else String.mk u))
    | none => pure cleaned
  else
    pure price_text

/-- Location extraction: main chain, region chain, then the regex scan
over the node's full text. -/
def anjuke_location (item : AnjukeItem) : Except String String := do
  let ls ← chainSelect item.selOne anjuke_loc_selectors
  let location := match ls with
    | some t => pyStrip t
    | none => "未知"
  let location ← if location == "未知" then do
      let rs ← chainSelect item.selOne anjuke_region_selectors
      pure (match rs with
        | some t => pyStrip t
        | none => location)
    else pure location
  if location == "未知" then
    pure (match locSearch item.text.data with
      | some m => String.mk m
      | none => location)
  else
    pure location

/-- Layout-text extraction: selector chain; if the text lacks `室`, a
`(\d+)\s*室\s*(\d+)\s*厅` scan of the full text; if still unknown, the
wider `(\d+)[室].*?(\d+)[厅厘]` scan. -/
def anjuke_housetype (item : AnjukeItem) : Except String String := do
  let ts ← chainSelect item.selOne anjuke_type_selectors
  let htx := match ts with
    | some t => pyStrip t
    | none => "未知"
  let htx := if htx != "未知" && !strContains htx "室" then
      match roomSearch item.text.data with
      | some (d1, d2) => String.mk d1 ++ "室" ++ String.mk d2 ++ "厅"
      | none => "未知"
    else htx
  let htx := if htx == "未知" then
      match roomSearch2 item.text.data with
      | some (d1, d2) => String.mk d1 ++ "室" ++ String.mk d2 ++ "厅"
      | none => htx
    else htx
  pure htx

/-- The bedroom/living-room filter block (lines 596-608): when a filter is
truthy, the layout is re-parsed from the full node text; a parse with a
mismatching count rejects the node (`none`), a successful parse rewrites
the layout text from the integers, and a failed parse rejects the node. -/
def anjuke_room_filter (bedroom_num livingroom_num : Option Nat)
    (text htx : String) : Option String :=
  if truthy bedroom_num || truthy livingroom_num then
    match roomSearch text.data with
    | some (d1, d2) =>
      let rooms := natOfDigits d1
      let livingrooms := natOfDigits d2
      if (truthy bedroom_num && rooms != bedroom_num.getD 0) ||
         (truthy livingroom_num && livingrooms != livingroom_num.getD 0) then
        none
      else
        some (toString rooms ++ "室" ++ toString livingrooms ++ "厅")
    | none => none
  else
    some htx

/-- Area extraction: selector chain, `(\d+\.?\d*)\s*[平㎡]` on the
selector text, then `(\d+\.?\d*)\s*[平㎡平米平方米]` on the full text. -/
def anjuke_area (item : AnjukeItem) : Except String String := do
  let aSel ← chainSelect item.selOne anjuke_area_selectors
  let area_text := match aSel with
    | some t => pyStrip t
    | none => "未知"
  let area := if area_text != "未知" then
      match areaSearch1 area_text.data with
      | some g => String.mk g
      | none => "未知"
    else "未知"
  let area := if area == "未知" then
      match areaSearch2 item.text.data with
      | some g => String.mk g
      | none => area
    else area
  pure area

/-- Year selector chain: unlike the other chains, it keeps trying further
selectors when an element exists but its text has no `(\d{4})\s*年`. -/
def anjuke_year_chain (q : String → Except String (Option String)) :
    List String → Except String String
  | [] => pure "未知"
  | s :: rest => do
    match ← q s with
    | some t =>
      match yearSearch (pyStrip t).data with
      | some g => pure (String.mk g)
      | none => anjuke_year_chain q rest
    | none => anjuke_year_chain q rest

/-- Build-year extraction: the selector chain, then the
`(\d{4})\s*年[建筑建成]?` scan of the full text. -/
def anjuke_year (item : AnjukeItem) : Except String String := do
  let y ← anjuke_year_chain item.selOne anjuke_year_selectors
  if y == "未知" then
    pure (match yearSearch item.text.data with
      | some g => String.mk g
      | none => "未知")
  else pure y

/-- The build-year filter (lines 650-657): rejects only when the filter is
truthy AND a year was recovered AND it differs. -/
def anjuke_year_reject (build_year : Option Nat) (year : String) : Bool :=
  truthy build_year && year != "未知" && natOfString year != build_year.getD 0

structure AnjukeRecord where
  name : String
  price : String
  location : String
  htype : String
  area : String
  buildYear : String
  platform : String
  listingType : String
  crawlTime : String
deriving DecidableEq, Repr

/-- The body of `for item in house_items` in `scrape_anjuke` (lines
505-674): returns `some` record to append, `none` when a filter rejected
the node (`continue`), or an error when any step raised. -/
def extract_anjuke_item (item : AnjukeItem) (house_type : String)
    (bedroom_num livingroom_num build_year : Option Nat) (now : String) :
    Except String (Option AnjukeRecord) := do
  let name ← anjuke_name item
  let price ← anjuke_price item
  let location ← anjuke_location item
  let htx ← anjuke_housetype item
  match anjuke_room_filter bedroom_num livingroom_num item.text htx with
  | none => return none
  | some htx2 => do
    let area ← anjuke_area item
    let year ← anjuke_year item
    if anjuke_year_reject build_year year then
      return none
    else
      return some { name := name, price := price, location := location,
                    htype := htx2, area := area, buildYear := year,
                    platform := "安居客", listingType := house_type,
                    crawlTime := now }

/-- The item loop around `extract_anjuke_item`: the whole per-item body is
wrapped in one `try/except`, so a raising item is logged and skipped and
the loop continues with the next item. -/
def scrape_anjuke_items (house_type : String)
    (bedroom_num livingroom_num build_year : Option Nat) (now : String) :
    List AnjukeItem → List AnjukeRecord → List AnjukeRecord
  | [], store => store
  | item :: rest, store =>
    match extract_anjuke_item item house_type bedroom_num livingroom_num build_year now with
    | .ok (some r) =>
      scrape_anjuke_items house_type bedroom_num livingroom_num build_year now rest (store ++ [r])
    | .ok none =>
      scrape_anjuke_items house_type bedroom_num livingroom_num build_year now rest store
    | .error _ =>
      scrape_anjuke_items house_type bedroom_num livingroom_num build_year now rest store

/-! ## The per-item extraction of `scrape_58` (new / resale / rental) -/

/-- A 58.com listing node: `selOne` models `select_one(...).text`,
`selAll` models the texts of `item.select(...)`, `text` models
`item.text`. -/
structure Item58 where
  selOne : String → Except String (Option String)
  selAll : String → List String
  text : String

structure Record58 where
  platform : String
  name : String
  price : String
  location : String
  htype : String
  area : String
  buildYear : String
  houseType : String
  city : String
  crawlTime : String
deriving DecidableEq, Repr

/-- First tag text whose stripped form contains both `室` and `厅`
(returns the stripped text, `""` when none does). -/
def firstRoomTagNew : List String → String
  | [] => ""
  | t :: rest =>
    let s := pyStrip t
    if strContains s "室" && strContains s "厅" then s else firstRoomTagNew rest

/-- First tag text matching `(\d{4})年` (group 1, `"未知"` when none). -/
def firstYearTagNS : List String → String
  | [] => "未知"
  | t :: rest =>
    match yearSearchNS t.data with
    | some g => String.mk g
    | none => firstYearTagNS rest

/-- First tag text matching `(\d+\.?\d*)平米` (`group(0)`, `""` if none). -/
def firstAreaTag58 : List String → String
  | [] => ""
  | t :: rest =>
    match areaSearch58 t.data with
    | some g => String.mk g
    | none => firstAreaTag58 rest

/-- The 58 bedroom/living-room filter: re-parses `(\d+)室(\d+)厅` from the
layout text; a mismatching parse rejects, a FAILED parse keeps the node
(there is no `else` branch). -/
def room_filter_58 (bedroom_num livingroom_num : Option Nat) (htx : String) : Bool :=
  if truthy bedroom_num || truthy livingroom_num then
    match roomSearchNS htx.data with
    | some p =>
      (truthy bedroom_num && natOfDigits p.1 != bedroom_num.getD 0) ||
      (truthy livingroom_num && natOfDigits p.2 != livingroom_num.getD 0)
    | none => false
  else false

/-- Per-item body of the 新房 branch of `scrape_58` (lines 771-834). -/
def extract_58new_item (item : Item58) (house_type city : String)
    (bedroom_num livingroom_num build_year : Option Nat) (now : String) :
    Except String (Option Record58) := do
  let nameSel ← item.selOne ".lp-name"
  let name := match nameSel with
    | some t => pyStrip t
    | none => "未知"
  let priceSel ← item.selOne ".price"
  let price_text := match priceSel with
    | some t => pyStrip t
    | none => "未知"
  let locSel ← item.selOne ".address"
  let location := match locSel with
    | some t => pyStrip t
    | none => "未知"
  let tags := item.selAll ".tag-panel span"
  let house_type_text := firstRoomTagNew tags
  let year := firstYearTagNS tags
  if truthy build_year && year != "未知" && natOfString year != build_year.getD 0 then
    return none
  if room_filter_58 bedroom_num livingroom_num house_type_text then
    return none
  let area_text := firstAreaTag58 tags
  return some { platform := "58同城", name := name, price := price_text,
                location := location, htype := house_type_text, area := area_text,
                buildYear := year, houseType := house_type, city := city,
                crawlTime := now }

def title_selectors_58used : List String :=
  [".title a", ".title", "h3", ".house-title", ".property-content-title h3"]

def price_selectors_58used : List String :=
  [".price", ".money", ".price-det", ".total-price", ".property-price", ".price_total"]

def address_selectors_58used : List String :=
  [".address", ".list-cell-address", ".positionInfo", ".property-content-info"]

def type_selectors_58used : List String :=
  [".houseInfo", ".room", ".property-content-info .property-content-info-text"]

/-- Selector chain followed by Python's `if not x: x = "未知"` (an *empty*
stripped text also falls back to `未知`). -/
def chain_or_unknown (q : String → Except String (Option String))
    (sels : List String) : Except String String := do
  let r ← chainSelect q sels
  match r with
  | some t =>
    let s := pyStrip t
    pure (if s == "" then "未知" else s)
  | none => pure "未知"

/-- `item.select(sel)` chains of the 二手房 branch: first element (over all
selectors in order) whose stripped text contains `室` and `厅`. -/
def firstRoomInAll (selAll : String → List String) : List String → String
  | [] => ""
  | sel :: rest =>
    let found := firstRoomTagNew (selAll sel)
    if found != "" then found else firstRoomInAll selAll rest

/-- Per-item body of the 二手房 branch of `scrape_58` (lines 856-951).
The record dict at line 940 reads the local variable `year`, which is
never assigned anywhere in this branch, so Python raises `NameError` for
every item that reaches the record construction; the only non-error
outcome is the filter `continue` (`ok none`). -/
def extract_58used_item (item : Item58)
    (bedroom_num livingroom_num : Option Nat) :
    Except String (Option Record58) := do
  let _title ← chain_or_unknown item.selOne title_selectors_58used
  let _price ← chain_or_unknown item.selOne price_selectors_58used
  let _address ← chain_or_unknown item.selOne address_selectors_58used
  let house_type_text := firstRoomInAll item.selAll type_selectors_58used
  if house_type_text == "" then
    match roomSearchNS item.text.data with
    | some p =>
      if (truthy bedroom_num && natOfDigits p.1 != bedroom_num.getD 0) ||
         (truthy livingroom_num && natOfDigits p.2 != livingroom_num.getD 0) then
        return none
    | none => pure ()
  let _area_text := match areaSearch58 item.text.data with
    | some g => String.mk g
    | none => "未知"
  throw "NameError: name year is not defined"

/-- First attribute text containing `室` and `厅` (checked unstripped,
assigned stripped), as in the 租房 branch. -/
def firstRoomTagRent : List String → String
  | [] => ""
  | t :: rest =>
    if strContains t "室" && strContains t "厅" then pyStrip t
    else firstRoomTagRent rest

/-- Per-item body of the 租房 branch of `scrape_58` (lines 966-1032). -/
def extract_58rent_item (item : Item58) (house_type city : String)
    (bedroom_num livingroom_num build_year : Option Nat) (now : String) :
    Except String (Option Record58) := do
  let titleSel ← item.selOne ".list-cell-title a"
  let title := match titleSel with
    | some t => pyStrip t
    | none => "未知"
  let priceSel ← item.selOne ".money"
  let price := match priceSel with
    | some t => pyStrip t ++ "元/月"
    | none => "未知"
  let addrSel ← item.selOne ".list-cell-address a span"
  let address := match addrSel with
    | some t => pyStrip t
    | none => "未知"
  let attrs := item.selAll ".list-cell-attribute li"
  let house_type_text := firstRoomTagRent attrs
  let descSel ← item.selOne ".list-cell-desc"
  let building_info := match descSel with
    | some t => t
    | none => ""
  let year := match yearSearchNS building_info.data with
    | some g => String.mk g
    | none => "未知"
  if truthy build_year && year != "未知" && natOfString year != build_year.getD 0 then
    return none
  if room_filter_58 bedroom_num livingroom_num house_type_text then
    return none
  let area_text := firstAreaTag58 attrs
  return some { platform := "58同城", name := title, price := price,
                location := address, htype := house_type_text, area := area_text,
                buildYear := year, houseType := house_type, city := city,
                crawlTime := now }

/-- The 58 item loops: one `try/except` per item, raising items are
logged and skipped. -/
def scrape_58_items (extract : Item58 → Except String (Option Record58)) :
    List Item58 → List Record58 → List Record58
  | [], store => store
  | item :: rest, store =>
    match extract item with
    | .ok (some r) => scrape_58_items extract rest (store ++ [r])
    | .ok none => scrape_58_items extract rest store
    | .error _ => scrape_58_items extract rest store

/-! ## PageRetryController: the page loops of `scrape_anjuke` / `scrape_58`

The environment supplies the outcome of the k-th `requests.get` (an
`error` is a raised transport exception), the result of the k-th
`handle_verification` call, and the k-th `random.uniform(1,3)` draw.
Observable actions are recorded in a trace: each HTTP GET, each
`time.sleep` with its amount, and each verification prompt. -/

inductive Ev where
  | fetchEv (page : Nat)
  | sleepEv (amount : Nat)
  | verifEv
deriving DecidableEq, Repr

/-- A fetched page: raw body (fed to `check_verification`), HTTP status,
the text of the parsed soup (`len(soup.text)`), and `soup.select`. -/
structure FetchResult (ι : Type) where
  body : String
  status : Nat
  soupText : String
  items : String → List ι

structure ScrapeEnv (ι : Type) where
  fetch : Nat → Except Unit (FetchResult ι)
  handleVerif : Nat → Bool
  rand : Nat → Nat
  now : String

structure ScrapeSt (ρ : Type) where
  fetchIdx : Nat
  verifIdx : Nat
  randIdx : Nat
  vh : Bool
  store : List ρ
  trace : List Ev

def initSt {ρ : Type} : ScrapeSt ρ :=
  { fetchIdx := 0, verifIdx := 0, randIdx := 0, vh := false, store := [], trace := [] }

/-- How one iteration of the anjuke retry `while` ends: `brk` is a
`break`, `cont` is a `continue` (the backoff sleep at the bottom of the
loop body is skipped), `fall` falls through to the backoff sleep. -/
inductive IterOut where
  | brk
  | cont
  | fall
deriving DecidableEq, Repr

def max_retries : Nat := 3

/-- Lines 492-503 and 505-680: detect the item selector, select the
items; zero items is `retry_count += 1; continue`, otherwise the item
loop runs and the retry loop `break`s. -/
def anjuke_parse_phase (house_type : String)
    (bedroom_num livingroom_num build_year : Option Nat) (now : String)
    (fr : FetchResult AnjukeItem) (st : ScrapeSt AnjukeRecord) (rc : Nat) :
    ScrapeSt AnjukeRecord × Nat × IterOut :=
  let sel := detect_house_item_selector (fun s => (fr.items s).length) "anjuke" house_type
  let house_items := fr.items sel
  if house_items.isEmpty then
    (st, rc + 1, .cont)
  else
    ({ st with store := scrape_anjuke_items house_type bedroom_num livingroom_num
                          build_year now house_items st.store }, rc, .brk)

/-- Lines 473-684: the `status_code == 200` check and the short-content
re-verification branch (whose `handle_verification` result is *assigned*
but not tested for skip), then the parse phase; a non-200 status falls
through to the backoff sleep. -/
def anjuke_status_phase (env : ScrapeEnv AnjukeItem) (house_type : String)
    (bedroom_num livingroom_num build_year : Option Nat) (page : Nat)
    (fr : FetchResult AnjukeItem) (st : ScrapeSt AnjukeRecord) (rc : Nat) :
    ScrapeSt AnjukeRecord × Nat × IterOut :=
  if fr.status == 200 then
    if fr.soupText.length < 1000 then
      if !st.vh then
        let v := env.handleVerif st.verifIdx
        let st := { st with verifIdx := st.verifIdx + 1, vh := v,
                            trace := st.trace ++ [Ev.verifEv] }
        match env.fetch st.fetchIdx with
        | .error _ =>
          ({ st with fetchIdx := st.fetchIdx + 1,
                     trace := st.trace ++ [Ev.fetchEv page] }, rc + 1, .fall)
        | .ok fr2 =>
          anjuke_parse_phase house_type bedroom_num livingroom_num build_year env.now fr2
            { st with fetchIdx := st.fetchIdx + 1,
                      trace := st.trace ++ [Ev.fetchEv page] } rc
      else
        ({ st with randIdx := st.randIdx + 1,
                   trace := st.trace ++ [Ev.sleepEv (env.rand st.randIdx * 2)] },
         rc + 1, .cont)
    else
      anjuke_parse_phase house_type bedroom_num livingroom_num build_year env.now fr st rc
  else
    (st, rc + 1, .fall)

/-- One iteration of the retry `while` of `scrape_anjuke` (lines 448-688):
fetch, challenge check (user skip `break`s out of the retry loop only),
then the status/parse phases; a raised fetch is the `except` path. -/
def anjuke_iter (env : ScrapeEnv AnjukeItem) (house_type : String)
    (bedroom_num livingroom_num build_year : Option Nat) (page : Nat)
    (st : ScrapeSt AnjukeRecord) (rc : Nat) :
    ScrapeSt AnjukeRecord × Nat × IterOut :=
  match env.fetch st.fetchIdx with
  | .error _ =>
    ({ st with fetchIdx := st.fetchIdx + 1,
               trace := st.trace ++ [Ev.fetchEv page] }, rc + 1, .fall)
  | .ok fr =>
    let st := { st with fetchIdx := st.fetchIdx + 1,
                        trace := st.trace ++ [Ev.fetchEv page] }
    if check_verification fr.body then
      if !st.vh then
        let v := env.handleVerif st.verifIdx
        let st := { st with verifIdx := st.verifIdx + 1,
                            trace := st.trace ++ [Ev.verifEv] }
        if !v then
          (st, rc, .brk)
        else
          let st := { st with vh := true }
          match env.fetch st.fetchIdx with
          | .error _ =>
            ({ st with fetchIdx := st.fetchIdx + 1,
                       trace := st.trace ++ [Ev.fetchEv page] }, rc + 1, .fall)
          | .ok fr2 =>
            anjuke_status_phase env house_type bedroom_num livingroom_num build_year page fr2
              { st with fetchIdx := st.fetchIdx + 1,
                        trace := st.trace ++ [Ev.fetchEv page] } rc
      else
        ({ st with randIdx := st.randIdx + 1,
                   trace := st.trace ++ [Ev.sleepEv (env.rand st.randIdx * 2)] },
         rc + 1, .cont)
    else
      anjuke_status_phase env house_type bedroom_num livingroom_num build_year page fr st rc

/-- The retry `while retry_count < max_retries` of `scrape_anjuke`; on the
fall-through paths the backoff `time.sleep(get_random_delay() *
(retry_count + 1))` runs when `0 < retry_count < max_retries`.  The fuel
equals `max_retries` on entry: every non-break iteration increments
`retry_count` by exactly one, so the guard and the fuel agree. -/
def anjuke_while (env : ScrapeEnv AnjukeItem) (house_type : String)
    (bedroom_num livingroom_num build_year : Option Nat) (page : Nat) :
    Nat → Nat → ScrapeSt AnjukeRecord → ScrapeSt AnjukeRecord
  | 0, _, st => st
  | fuel + 1, rc, st =>
    if rc < max_retries then
      match anjuke_iter env house_type bedroom_num livingroom_num build_year page st rc with
      | (st1, rc1, .brk) => let _ := rc1; st1
      | (st1, rc1, .cont) =>
        anjuke_while env house_type bedroom_num livingroom_num build_year page fuel rc1 st1
      | (st1, rc1, .fall) =>
        let st2 :=
          if 0 < rc1 && rc1 < max_retries then
            { st1 with randIdx := st1.randIdx + 1,
                       trace := st1.trace ++ [Ev.sleepEv (env.rand st1.randIdx * (rc1 + 1))] }
          else st1
        anjuke_while env house_type bedroom_num livingroom_num build_year page fuel rc1 st2
    else st

/-- The page `for` loop of `scrape_anjuke` (lines 443-697): retry loop for
each page, then the between-pages `time.sleep(get_random_delay())`. -/
def anjuke_pages (env : ScrapeEnv AnjukeItem) (house_type : String)
    (bedroom_num livingroom_num build_year : Option Nat) :
    Nat → Nat → ScrapeSt AnjukeRecord → ScrapeSt AnjukeRecord
  | 0, _, st => st
  | remaining + 1, page, st =>
    let st := anjuke_while env house_type bedroom_num livingroom_num build_year page
                max_retries 0 st
    let st := { st with randIdx := st.randIdx + 1,
                        trace := st.trace ++ [Ev.sleepEv (env.rand st.randIdx)] }
    anjuke_pages env house_type bedroom_num livingroom_num build_year remaining (page + 1) st

/-- `MultiPlatformHousingScraper.scrape_anjuke`, as a state machine. -/
def scrape_anjuke_model (env : ScrapeEnv AnjukeItem) (house_type : String)
    (bedroom_num livingroom_num build_year : Option Nat) (page_count : Nat) :
    ScrapeSt AnjukeRecord :=
  anjuke_pages env house_type bedroom_num livingroom_num build_year page_count 1 initSt

/-- The nested fallback `soup.select` chains of `scrape_58`: first
selector in the list with a non-empty node list. -/
def firstNonEmptySel (items : String → List Item58) : List String → List Item58
  | [] => []
  | s :: rest =>
    let l := items s
    if l.isEmpty then firstNonEmptySel items rest else l

/-- The `status_code == 200` body of `scrape_58` (lines 754-1038): pick
the branch by listing type, run the item loop, then the end-of-page
`time.sleep(get_random_delay())`; when every candidate selector finds no
node the page is `continue`d (no sleep). -/
def parse_58 (env : ScrapeEnv Item58) (house_type city : String)
    (bedroom_num livingroom_num build_year : Option Nat)
    (fr : FetchResult Item58) (st : ScrapeSt Record58) :
    ScrapeSt Record58 × Bool :=
  if fr.status == 200 then
    let sels :=
      if house_type == "新房" then [".key-list .item", ".property", ".item"]
      else if house_type == "二手房" then [".property", ".listItem", "li.house-cell", ".house-item"]
      else [".list-cell", ".property", ".card"]
    let house_items := firstNonEmptySel fr.items sels
    if house_items.isEmpty then
      (st, false)
    else
      let store2 :=
        if house_type == "新房" then
          scrape_58_items (fun it => extract_58new_item it house_type city bedroom_num
            livingroom_num build_year env.now) house_items st.store
        else if house_type == "二手房" then
          scrape_58_items (fun it => extract_58used_item it bedroom_num livingroom_num)
            house_items st.store
        else
          scrape_58_items (fun it => extract_58rent_item it house_type city bedroom_num
            livingroom_num build_year env.now) house_items st.store
      ({ st with store := store2, randIdx := st.randIdx + 1,
                 trace := st.trace ++ [Ev.sleepEv (env.rand st.randIdx)] }, false)
  else
    ({ st with randIdx := st.randIdx + 1,
               trace := st.trace ++ [Ev.sleepEv (env.rand st.randIdx)] }, false)

/-- One page of `scrape_58` (lines 732-1041).  In this scraper the
challenge-skip path executes `break` directly inside the page `for` loop
(line 747), so it returns `true` = stop the WHOLE page loop; the page
body has no retry loop, and any raised fetch is caught by the per-page
`except` and moves on to the next page. -/
def page_58 (env : ScrapeEnv Item58) (house_type city : String)
    (bedroom_num livingroom_num build_year : Option Nat) (page : Nat)
    (st : ScrapeSt Record58) : ScrapeSt Record58 × Bool :=
  match env.fetch st.fetchIdx with
  | .error _ =>
    ({ st with fetchIdx := st.fetchIdx + 1,
               trace := st.trace ++ [Ev.fetchEv page] }, false)
  | .ok fr =>
    let st := { st with fetchIdx := st.fetchIdx + 1,
                        trace := st.trace ++ [Ev.fetchEv page] }
    if check_verification fr.body then
      if !st.vh then
        let v := env.handleVerif st.verifIdx
        let st := { st with verifIdx := st.verifIdx + 1,
                            trace := st.trace ++ [Ev.verifEv] }
        if !v then
          (st, true)
        else
          let st := { st with vh := true }
          match env.fetch st.fetchIdx with
          | .error _ =>
            ({ st with fetchIdx := st.fetchIdx + 1,
                       trace := st.trace ++ [Ev.fetchEv page] }, false)
          | .ok fr2 =>
            parse_58 env house_type city bedroom_num livingroom_num build_year fr2
              { st with fetchIdx := st.fetchIdx + 1,
                        trace := st.trace ++ [Ev.fetchEv page] }
      else
        (st, false)
    else
      parse_58 env house_type city bedroom_num livingroom_num build_year fr st

/-- The page `for` loop of `scrape_58`: a `true` outcome of `page_58` is
the `break` that abandons all remaining pages. -/
def pages_58 (env : ScrapeEnv Item58) (house_type city : String)
    (bedroom_num livingroom_num build_year : Option Nat) :
    Nat → Nat → ScrapeSt Record58 → ScrapeSt Record58
  | 0, _, st => st
  | remaining + 1, page, st =>
    match page_58 env house_type city bedroom_num livingroom_num build_year page st with
    | (st1, true) => st1
    | (st1, false) =>
      pages_58 env house_type city bedroom_num livingroom_num build_year remaining (page + 1) st1

/-- `MultiPlatformHousingScraper.scrape_58`, as a state machine. -/
def scrape_58_model (env : ScrapeEnv Item58) (house_type city : String)
    (bedroom_num livingroom_num build_year : Option Nat) (page_count : Nat) :
    ScrapeSt Record58 :=
  pages_58 env house_type city bedroom_num livingroom_num build_year page_count 1 initSt

/-! ## `AutoVerificationHandler.get_cookies_dict` -/

/-- The state `get_cookies_dict` depends on: either no browser driver was
started (`self.driver is None`), or a driver whose `get_cookies()` call
either raises or returns a list of name/value cookies. -/
inductive DriverState where
  | noDriver
  | driver (cookies : Except String (List (String × String)))

/-- Python dict insertion (later keys overwrite earlier ones). -/
def dictInsert (d : List (String × String)) (k v : String) : List (String × String) :=
  if d.any (fun p => p.1 == k) then
    d.map (fun p => if p.1 == k then (k, v) else p)
  else d ++ [(k, v)]

/-- The dict comprehension `{c['name']: c['value'] for c in cookies}`. -/
def dictOfPairs (ps : List (String × String)) : List (String × String) :=
  ps.foldl (fun d p => dictInsert d p.1 p.2) []

/-- `AutoVerificationHandler.get_cookies_dict` (lines 797-811). -/
def get_cookies_dict : DriverState → List (String × String)
  | .noDriver => []
  | .driver (.error _) => []
  | .driver (.ok cs) => dictOfPairs cs

/-! ## Lemmas about the candidate-scanning loop -/

@[simp] theorem except_bind_ok {α β : Type} (a : α) (f : α → Except String β) :
    (Except.ok a : Except String α) >>= f = f a := rfl

@[simp] theorem except_bind_err {α β : Type} (e : String) (f : α → Except String β) :
    (Except.error e : Except String α) >>= f = Except.error e := rfl

/-- Proof-side characterization of the `max_items`/`best_selector`
accumulator of the scanning loop (strict improvements only). -/
def foldBest (soup : String → Nat) : List String → Nat → Option String → Nat × Option String
  | [], m, b => (m, b)
  | s :: rest, m, b =>
    if soup s > m then foldBest soup rest (soup s) (some s)
    else foldBest soup rest m b

@[simp] theorem maxCount_nil (soup : String → Nat) : maxCount soup [] = 0 := rfl

@[simp] theorem maxCount_cons (soup : String → Nat) (a : String) (rest : List String) :
    maxCount soup (a :: rest) = max (soup a) (maxCount soup rest) := rfl

theorem count_le_maxCount (soup : String → Nat) (l : List String) :
    ∀ s ∈ l, soup s ≤ maxCount soup l := by
  induction l with
  | nil => intro s hs; cases hs
  | cons a rest ih =>
    intro s hs
    rw [maxCount_cons]
    rcases List.mem_cons.mp hs with h | h
    · subst h; exact Nat.le_max_left _ _
    · exact le_trans (ih s h) (Nat.le_max_right _ _)

theorem foldBest_all_le (soup : String → Nat) :
    ∀ (l : List String) (m : Nat) (b : Option String),
      (∀ s ∈ l, soup s ≤ m) → foldBest soup l m b = (m, b) := by
  intro l
  induction l with
  | nil => intro m b _; rfl
  | cons a rest ih =>
    intro m b h
    have ha := h a (List.mem_cons_self a rest)
    simp only [foldBest]
    rw [if_neg (by omega)]
    exact ih m b (fun s hs => h s (List.mem_cons_of_mem a hs))

theorem maxCount_attained (soup : String → Nat) :
    ∀ (l : List String), 0 < maxCount soup l → ∃ s ∈ l, soup s = maxCount soup l := by
  intro l
  induction l with
  | nil => intro h; simp at h
  | cons a rest ih =>
    intro h
    rcases Nat.le_total (maxCount soup rest) (soup a) with hle | hle
    · exact ⟨a, List.mem_cons_self a rest, (Nat.max_eq_left hle).symm⟩
    · rw [maxCount_cons, Nat.max_eq_right hle] at h ⊢
      obtain ⟨s, hs, he⟩ := ih h
      exact ⟨s, List.mem_cons_of_mem a hs, he⟩

theorem foldBest_max (soup : String → Nat) :
    ∀ (l : List String) (m : Nat) (b : Option String), m < maxCount soup l →
      foldBest soup l m b =
        (maxCount soup l, List.find? (fun s => soup s == maxCount soup l) l) := by
  intro l
  induction l with
  | nil => intro m b h; simp at h
  | cons a rest ih =>
    intro m b h
    by_cases hgt : soup a > m
    · simp only [foldBest]
      rw [if_pos hgt]
      by_cases hrest : soup a < maxCount soup rest
      · have hmc : max (soup a) (maxCount soup rest) = maxCount soup rest :=
          Nat.max_eq_right (le_of_lt hrest)
        rw [ih (soup a) (some a) hrest, maxCount_cons, hmc]
        have hpa : (soup a == maxCount soup rest) = false := by
          simp [Nat.ne_of_lt hrest]
        rw [List.find?_cons, hpa]
      · have hle2 : maxCount soup rest ≤ soup a := Nat.not_lt.mp hrest
        rw [foldBest_all_le soup rest (soup a) (some a)
            (fun s hs => le_trans (count_le_maxCount soup rest s hs) hle2)]
        rw [maxCount_cons, Nat.max_eq_left hle2]
        have hpa : (soup a == soup a) = true := by simp
        rw [List.find?_cons, hpa]
    · have hsa : soup a ≤ m := Nat.not_lt.mp hgt
      have hmc : max (soup a) (maxCount soup rest) = maxCount soup rest := by
        rcases Nat.le_total (soup a) (maxCount soup rest) with h1 | h1
        · exact Nat.max_eq_right h1
        · rw [maxCount_cons, Nat.max_eq_left h1] at h; omega
      simp only [foldBest]
      rw [if_neg hgt]
      rw [maxCount_cons, hmc] at h ⊢
      rw [ih m b h]
      have hpa : (soup a == maxCount soup rest) = false := by
        have : soup a ≠ maxCount soup rest := by omega
        simp [this]
      rw [List.find?_cons, hpa]

theorem firstConfident_none (soup : String → Nat) (t : Nat) :
    ∀ (l : List String), firstConfident soup t l = none → ∀ s ∈ l, soup s < t := by
  intro l
  induction l with
  | nil => intro _ s hs; cases hs
  | cons a rest ih =>
    intro hfc s hs
    simp only [firstConfident] at hfc
    by_cases hta : t ≤ soup a
    · rw [if_pos hta] at hfc; cases hfc
    · rw [if_neg hta] at hfc
      rcases List.mem_cons.mp hs with h | h
      · subst h; omega
      · exact ih hfc s h

theorem scan_first_confident (soup : String → Nat) (t : Nat) :
    ∀ (l : List String) (m : Nat) (b : Option String) (sel : String), m < t →
      firstConfident soup t l = some sel →
      scanSelectors soup t l m b = .inl sel := by
  intro l
  induction l with
  | nil => intro m b sel _ hfc; cases hfc
  | cons a rest ih =>
    intro m b sel hm hfc
    simp only [firstConfident] at hfc
    simp only [scanSelectors]
    by_cases hta : t ≤ soup a
    · rw [if_pos hta] at hfc
      injection hfc with he
      subst he
      rw [if_pos (lt_of_lt_of_le hm hta), if_pos hta]
    · rw [if_neg hta] at hfc
      have hat : soup a < t := Nat.not_le.mp hta
      by_cases hgt : soup a > m
      · rw [if_pos hgt, if_neg hta]
        exact ih (soup a) (some a) sel hat hfc
      · rw [if_neg hgt]
        exact ih m b sel hm hfc

theorem scan_no_confident (soup : String → Nat) (t : Nat) :
    ∀ (l : List String) (m : Nat) (b : Option String),
      (∀ s ∈ l, soup s < t) →
      scanSelectors soup t l m b = .inr (foldBest soup l m b) := by
  intro l
  induction l with
  | nil => intro m b _; rfl
  | cons a rest ih =>
    intro m b h
    have ha := h a (List.mem_cons_self a rest)
    have hrest := fun s hs => h s (List.mem_cons_of_mem a hs)
    simp only [scanSelectors, foldBest]
    by_cases hgt : soup a > m
    · rw [if_pos hgt, if_neg (by omega : ¬ soup a ≥ t), if_pos hgt]
      exact ih (soup a) (some a) hrest
    · rw [if_neg hgt, if_neg hgt]
      exact ih m b hrest

/-! ## Claim theorems: C4, C5, C10, C1 -/

/-- C4 — confirmed.  For every parsed document and every (site,
listing-type) key with at least one matching profile candidate,
`detect_house_item_selector` realizes the specification's two-tier rule
over the profile list: the first candidate whose match count is at least
5, otherwise the candidate with the highest match count among those with
at least one match, ties going to the earliest candidate
(`specResolve` is spelled from the specification's words). -/
theorem c4_selector_resolution (soup : String → Nat) (site house_type : String)
    (h : 0 < maxCount soup (profileSelectors site house_type)) :
    specResolve soup (profileSelectors site house_type) =
      some (detect_house_item_selector soup site house_type) := by
  unfold detect_house_item_selector specResolve
  cases hfc : firstConfident soup 5 (profileSelectors site house_type) with
  | some sel =>
    rw [scan_first_confident soup 5 _ 0 none sel (by omega) hfc]
  | none =>
    have hsmall := firstConfident_none soup 5 _ hfc
    rw [scan_no_confident soup 5 _ 0 none hsmall,
        foldBest_max soup _ 0 none h]
    obtain ⟨s0, hs0, he0⟩ := maxCount_attained soup _ h
    have hfind : (List.find? (fun s => soup s == maxCount soup (profileSelectors site house_type))
        (profileSelectors site house_type)).isSome := by
      rw [List.find?_isSome]
      exact ⟨s0, hs0, by simp [he0]⟩
    obtain ⟨sel, hsel⟩ := Option.isSome_iff_exists.mp hfind
    rw [hsel]
    simp only [bestBySpec, hsel, if_pos h]

/-- Witness for C4 at a concrete document. -/
theorem c4_witness :
    0 < maxCount (fun s => if s == ".item-mod" then 7 else 0)
        (profileSelectors "anjuke" "新房") ∧
    specResolve (fun s => if s == ".item-mod" then 7 else 0)
        (profileSelectors "anjuke" "新房") =
      some (detect_house_item_selector (fun s => if s == ".item-mod" then 7 else 0)
        "anjuke" "新房") :=
  ⟨by decide, c4_selector_resolution (fun s => if s == ".item-mod" then 7 else 0)
    "anjuke" "新房" (by decide)⟩

/-- C5 — confirmed.  When no profile candidate, no generic fallback
selector and not even the final catch-all selector matches any node,
selector resolution returns the catch-all selector, which selects zero
listing items: an empty result rather than an error (the function is
total). -/
theorem c5_empty_result (soup : String → Nat) (site house_type : String)
    (hp : ∀ s ∈ profileSelectors site house_type, soup s = 0)
    (hg : ∀ s ∈ general_selectors, soup s = 0)
    (hc : soup catchAllSelector = 0) :
    detect_house_item_selector soup site house_type = catchAllSelector ∧
    soup (detect_house_item_selector soup site house_type) = 0 := by
  have hdet : detect_house_item_selector soup site house_type = catchAllSelector := by
    unfold detect_house_item_selector
    rw [scan_no_confident soup 5 _ 0 none (fun s hs => by rw [hp s hs]; omega),
        foldBest_all_le soup _ 0 none (fun s hs => by rw [hp s hs])]
    show detectGeneral soup 0 none = catchAllSelector
    unfold detectGeneral
    rw [scan_no_confident soup 3 _ 0 none (fun s hs => by rw [hg s hs]; omega),
        foldBest_all_le soup _ 0 none (fun s hs => by rw [hg s hs])]
  exact ⟨hdet, by rw [hdet]; exact hc⟩

/-- Witness for C5 at the all-empty document. -/
theorem c5_witness :
    detect_house_item_selector (fun _ => 0) "anjuke" "二手房" = catchAllSelector ∧
    (fun _ : String => 0) (detect_house_item_selector (fun _ => 0) "anjuke" "二手房") = 0 :=
  c5_empty_result (fun _ => 0) "anjuke" "二手房" (fun _ _ => rfl) (fun _ _ => rfl) rfl

/-- C10 — confirmed.  `get_cookies_dict` is total over the driver state:
with no driver it returns the empty dict, with a raising
`driver.get_cookies()` it returns the empty dict, and otherwise it
returns the comprehension over the cookie list. -/
theorem c10_get_cookies_dict_total :
    get_cookies_dict DriverState.noDriver = [] ∧
    (∀ e : String, get_cookies_dict (DriverState.driver (.error e)) = []) ∧
    (∀ cs, get_cookies_dict (DriverState.driver (.ok cs)) = dictOfPairs cs) :=
  ⟨rfl, fun _ => rfl, fun _ => rfl⟩

/-- C1 — counterexample.  The body `"验证码"` contains exactly one keyword
of the challenge vocabulary and no HTML-element fingerprint and no URL
pattern, yet `check_verification` already returns `true`; the claim says
a single keyword match must yield `false`. -/
theorem c1_counterexample :
    (verification_keywords.filter (fun k => strContains "验证码" k)).length = 1 ∧
    verification_elements.all (fun e => !strContains "验证码" e) = true ∧
    verification_urls.all (fun u => !strContains "验证码" u) = true ∧
    check_verification "验证码" = true := by decide

/-- C1 — amended.  The keyword scan of `check_verification` has no
two-match threshold: any single occurrence of any keyword of the
vocabulary makes the detector return `true`. -/
theorem c1_single_keyword_triggers (body kw : String)
    (hmem : kw ∈ verification_keywords) (hsub : strContains body kw = true) :
    check_verification body = true := by
  unfold check_verification
  have h : verification_keywords.any (fun k => strContains body k) = true :=
    List.any_eq_true.mpr ⟨kw, hmem, hsub⟩
  rw [h]
  rfl

/-- Witness for the amended C1. -/
theorem c1_witness : check_verification "这里有验证码啊" = true :=
  c1_single_keyword_triggers "这里有验证码啊" "验证码" (by decide) (by decide)

/-! ## Lemmas about the anjuke field extractors -/

@[simp] theorem except_pure_eq {α : Type} (a : α) :
    (pure a : Except String α) = Except.ok a := rfl

/-- All DOM queries on this node succeed (no library exception). -/
def NoRaise (item : AnjukeItem) : Prop :=
  ∀ s, ∃ v, item.selOne s = .ok v

theorem chainSelect_ok (q : String → Except String (Option String))
    (hq : ∀ s, ∃ v, q s = .ok v) :
    ∀ sels, ∃ v, chainSelect q sels = .ok v := by
  intro sels
  induction sels with
  | nil => exact ⟨none, rfl⟩
  | cons s rest ih =>
    obtain ⟨v, hv⟩ := hq s
    cases v with
    | some t => exact ⟨some t, by simp [chainSelect, hv]⟩
    | none =>
      obtain ⟨w, hw⟩ := ih
      exact ⟨w, by simp [chainSelect, hv, hw]⟩

theorem anjuke_name_ok (item : AnjukeItem) (hok : NoRaise item) :
    ∃ v, anjuke_name item = .ok v := by
  obtain ⟨v, hv⟩ := chainSelect_ok item.selOne hok anjuke_name_selectors
  unfold anjuke_name
  rw [hv]
  cases v with
  | some t => exact ⟨pyStrip t, rfl⟩
  | none =>
    cases hfl : firstLongLink item.linkTexts with
    | some t => exact ⟨t, by simp [hfl]⟩
    | none => exact ⟨"未知", by simp [hfl]⟩

theorem anjuke_price_ok (item : AnjukeItem) (hok : NoRaise item) :
    ∃ v, anjuke_price item = .ok v := by
  obtain ⟨v, hv⟩ := chainSelect_ok item.selOne hok anjuke_price_selectors
  unfold anjuke_price
  rw [hv]
  simp only [except_bind_ok]
  cases v with
  | none => exact ⟨"未知", rfl⟩
  | some t =>
    split
    · split
      · exact ⟨_, rfl⟩
      · exact ⟨_, rfl⟩
    · exact ⟨_, rfl⟩

theorem anjuke_price_unknown (item : AnjukeItem)
    (h : chainSelect item.selOne anjuke_price_selectors = .ok none) :
    anjuke_price item = .ok "未知" := by
  unfold anjuke_price
  rw [h]
  rfl

theorem anjuke_location_ok (item : AnjukeItem) (hok : NoRaise item) :
    ∃ v, anjuke_location item = .ok v := by
  obtain ⟨v1, h1⟩ := chainSelect_ok item.selOne hok anjuke_loc_selectors
  obtain ⟨v2, h2⟩ := chainSelect_ok item.selOne hok anjuke_region_selectors
  unfold anjuke_location
  rw [h1]
  simp only [except_bind_ok]
  split
  · rw [h2]
    simp only [except_bind_ok, except_pure_eq]
    split
    · exact ⟨_, rfl⟩
    · exact ⟨_, rfl⟩
  · simp only [except_pure_eq, except_bind_ok]
    split
    · exact ⟨_, rfl⟩
    · exact ⟨_, rfl⟩

theorem anjuke_housetype_ok (item : AnjukeItem) (hok : NoRaise item) :
    ∃ v, anjuke_housetype item = .ok v := by
  obtain ⟨v, hv⟩ := chainSelect_ok item.selOne hok anjuke_type_selectors
  unfold anjuke_housetype
  rw [hv]
  simp only [except_bind_ok]
  exact ⟨_, rfl⟩

theorem anjuke_area_ok (item : AnjukeItem) (hok : NoRaise item) :
    ∃ v, anjuke_area item = .ok v := by
  obtain ⟨v, hv⟩ := chainSelect_ok item.selOne hok anjuke_area_selectors
  unfold anjuke_area
  rw [hv]
  simp only [except_bind_ok]
  exact ⟨_, rfl⟩

theorem anjuke_year_chain_ok (q : String → Except String (Option String))
    (hq : ∀ s, ∃ v, q s = .ok v) :
    ∀ sels, ∃ v, anjuke_year_chain q sels = .ok v := by
  intro sels
  induction sels with
  | nil => exact ⟨"未知", rfl⟩
  | cons s rest ih =>
    obtain ⟨v, hv⟩ := hq s
    obtain ⟨w, hw⟩ := ih
    unfold anjuke_year_chain
    rw [hv]
    simp only [except_bind_ok]
    cases v with
    | some t =>
      cases hy : yearSearch (pyStrip t).data with
      | some g => exact ⟨String.mk g, by simp [hy]⟩
      | none => exact ⟨w, by simp [hy, hw]⟩
    | none => exact ⟨w, hw⟩

theorem anjuke_year_ok (item : AnjukeItem) (hok : NoRaise item) :
    ∃ v, anjuke_year item = .ok v := by
  obtain ⟨v, hv⟩ := anjuke_year_chain_ok item.selOne hok anjuke_year_selectors
  unfold anjuke_year
  rw [hv]
  simp only [except_bind_ok]
  split
  · exact ⟨_, rfl⟩
  · exact ⟨_, rfl⟩

/-! ## Claim theorems: C6, C7, C2 -/

/-- C6 — confirmed.  For a node whose full text parses as the layout
`2室1厅` (and whose DOM queries do not raise), extraction with
`bedroom_num = 3` rejects the node (`ok none`, nothing appended), while
extraction with `bedroom_num = 2` produces a record. -/
theorem c6_bedroom_filter (item : AnjukeItem) (house_type now : String)
    (hok : NoRaise item)
    (hroom : roomSearch item.text.data = some (['2'], ['1'])) :
    extract_anjuke_item item house_type (some 3) none none now = .ok none ∧
    ∃ r, extract_anjuke_item item house_type (some 2) none none now = .ok (some r) := by
  obtain ⟨vn, hn⟩ := anjuke_name_ok item hok
  obtain ⟨vp, hp⟩ := anjuke_price_ok item hok
  obtain ⟨vl, hl⟩ := anjuke_location_ok item hok
  obtain ⟨vh, hh⟩ := anjuke_housetype_ok item hok
  obtain ⟨va, ha⟩ := anjuke_area_ok item hok
  obtain ⟨vy, hy⟩ := anjuke_year_ok item hok
  constructor
  · unfold extract_anjuke_item
    simp only [hn, hp, hl, hh, except_bind_ok]
    have hf : anjuke_room_filter (some 3) none item.text vh = none := by
      unfold anjuke_room_filter
      simp only [hroom]
      rfl
    rw [hf]
    rfl
  · unfold extract_anjuke_item
    simp only [hn, hp, hl, hh, except_bind_ok]
    have hf : anjuke_room_filter (some 2) none item.text vh = some "2室1厅" := by
      unfold anjuke_room_filter
      simp only [hroom]
      rfl
    rw [hf]
    simp only [ha, hy, except_bind_ok]
    exact ⟨_, rfl⟩

def c6item : AnjukeItem :=
  { selOne := fun _ => .ok none, linkTexts := [], text := "2室1厅" }

/-- Witness for C6 at a concrete node. -/
theorem c6_witness :
    extract_anjuke_item c6item "新房" (some 3) none none "t" = .ok none ∧
    ∃ r, extract_anjuke_item c6item "新房" (some 2) none none "t" = .ok (some r) :=
  c6_bedroom_filter c6item "新房" "t" (fun _ => ⟨none, rfl⟩) (by decide)

def c7item : AnjukeItem :=
  { selOne := fun _ => .ok none, linkTexts := [], text := "独栋别墅" }

/-- C7 — counterexample.  With the build-year filter set to 2010 and a
node from which no year can be parsed (`建筑年份` stays `未知`), the claim
demands rejection, but the code keeps the node: line 651 guards the
year filter with `build_year_found != "未知"`, so extraction returns a
record. -/
theorem c7_counterexample :
    extract_anjuke_item c7item "新房" none none (some 2010) "t" =
      .ok (some { name := "未知", price := "未知", location := "未知", htype := "未知",
                  area := "未知", buildYear := "未知", platform := "安居客",
                  listingType := "新房", crawlTime := "t" }) := rfl

/-- C7 — amended.  Only the layout side of the claim holds: when the
bedroom/living-room filter is truthy and no layout can be parsed from the
node text, the node is rejected; but when the build-year filter is set
and no year could be parsed, the node is KEPT (a record is returned). -/
theorem c7_amended :
    (∀ (item : AnjukeItem) (ht now : String) (bn ln by_ : Option Nat),
      NoRaise item →
      (truthy bn || truthy ln) = true →
      roomSearch item.text.data = none →
      extract_anjuke_item item ht bn ln by_ now = .ok none) ∧
    (∀ (item : AnjukeItem) (ht now : String) (by_ : Option Nat),
      NoRaise item →
      anjuke_year item = .ok "未知" →
      ∃ r, extract_anjuke_item item ht none none by_ now = .ok (some r)) := by
  constructor
  · intro item ht now bn ln by_ hok htr hnone
    obtain ⟨vn, hn⟩ := anjuke_name_ok item hok
    obtain ⟨vp, hp⟩ := anjuke_price_ok item hok
    obtain ⟨vl, hl⟩ := anjuke_location_ok item hok
    obtain ⟨vh, hh⟩ := anjuke_housetype_ok item hok
    unfold extract_anjuke_item
    simp only [hn, hp, hl, hh, except_bind_ok]
    have hf : anjuke_room_filter bn ln item.text vh = none := by
      unfold anjuke_room_filter
      rw [htr, hnone]
      rfl
    rw [hf]
    rfl
  · intro item ht now by_ hok hyear
    obtain ⟨vn, hn⟩ := anjuke_name_ok item hok
    obtain ⟨vp, hp⟩ := anjuke_price_ok item hok
    obtain ⟨vl, hl⟩ := anjuke_location_ok item hok
    obtain ⟨vh, hh⟩ := anjuke_housetype_ok item hok
    obtain ⟨va, ha⟩ := anjuke_area_ok item hok
    unfold extract_anjuke_item
    simp only [hn, hp, hl, hh, except_bind_ok]
    have hf : anjuke_room_filter none none item.text vh = some vh := rfl
    rw [hf]
    simp only [ha, hyear, except_bind_ok]
    have hr : anjuke_year_reject by_ "未知" = false := by
      unfold anjuke_year_reject
      simp
    rw [hr]
    exact ⟨_, rfl⟩

def c7witem : AnjukeItem :=
  { selOne := fun _ => .ok none, linkTexts := [], text := "花园洋房" }

/-- Witness for the amended C7. -/
theorem c7_witness :
    extract_anjuke_item c7witem "租房" (some 2) (some 1) none "t" = .ok none ∧
    ∃ r, extract_anjuke_item c7item "新房" none none (some 1999) "t" = .ok (some r) :=
  ⟨c7_amended.1 c7witem "租房" "t" (some 2) (some 1) none
      (fun _ => ⟨none, rfl⟩) (by decide) (by decide),
   c7_amended.2 c7item "新房" "t" (some 1999) (fun _ => ⟨none, rfl⟩) rfl⟩

def c2item : Item58 :=
  { selOne := fun s =>
      if s == ".title a" then .ok (some "好小区整租两房")
      else if s == ".price" then .ok (some "2000元/月")
      else if s == ".address" then .ok (some "某某路")
      else .ok none,
    selAll := fun _ => ["2室1厅"],
    text := "好小区 2室1厅 80平米" }

/-- C2 — counterexample.  A 58 resale node whose every field parses
cleanly still yields NO record: the record construction reads the
undefined local `year`, the resulting exception is caught by the
per-item handler and the whole record is discarded, where the claim
demands that a failing field be recorded as `未知` and the record kept. -/
theorem c2_counterexample :
    extract_58used_item c2item none none = .error "NameError: name year is not defined" ∧
    scrape_58_items (fun it => extract_58used_item it none none) [c2item] [] = [] :=
  ⟨rfl, rfl⟩

/-- C2 — amended.  Exceptions are caught per ITEM, not per field: an
item whose processing raises is skipped whole (its record is never
appended) and the loop continues with the remaining items; a field whose
candidate selectors merely find nothing (without raising) is recorded as
`未知` and the rest of the record is still produced. -/
theorem c2_amended :
    (∀ (item : AnjukeItem) (rest : List AnjukeItem) (store : List AnjukeRecord)
        (ht now : String) (bn ln by_ : Option Nat) (e : String),
      extract_anjuke_item item ht bn ln by_ now = .error e →
      scrape_anjuke_items ht bn ln by_ now (item :: rest) store =
        scrape_anjuke_items ht bn ln by_ now rest store) ∧
    (∀ (item : AnjukeItem) (ht now : String) (bn ln by_ : Option Nat) (r : AnjukeRecord),
      NoRaise item →
      chainSelect item.selOne anjuke_price_selectors = .ok none →
      extract_anjuke_item item ht bn ln by_ now = .ok (some r) →
      r.price = "未知") := by
  constructor
  · intro item rest store ht now bn ln by_ e herr
    simp [scrape_anjuke_items, herr]
  · intro item ht now bn ln by_ r hok hchain hex
    obtain ⟨vn, hn⟩ := anjuke_name_ok item hok
    have hp := anjuke_price_unknown item hchain
    obtain ⟨vl, hl⟩ := anjuke_location_ok item hok
    obtain ⟨vh, hh⟩ := anjuke_housetype_ok item hok
    obtain ⟨va, ha⟩ := anjuke_area_ok item hok
    obtain ⟨vy, hy⟩ := anjuke_year_ok item hok
    unfold extract_anjuke_item at hex
    simp only [hn, hp, hl, hh, except_bind_ok] at hex
    cases hfil : anjuke_room_filter bn ln item.text vh with
    | none =>
      rw [hfil] at hex
      exact Option.noConfusion (Except.ok.inj hex)
    | some htx2 =>
      rw [hfil] at hex
      simp only [ha, hy, except_bind_ok] at hex
      cases hre : anjuke_year_reject by_ vy with
      | true =>
        rw [hre] at hex
        exact Option.noConfusion (Except.ok.inj hex)
      | false =>
        rw [hre] at hex
        have h2 := Option.some.inj (Except.ok.inj hex)
        rw [← h2]

def c2witemA : AnjukeItem :=
  { selOne := fun s => if s == ".items-name" then .error "boom" else .ok none,
    linkTexts := [], text := "x" }

def c2witemB : AnjukeItem :=
  { selOne := fun _ => .ok none, linkTexts := [], text := "x" }

/-- Witness for the amended C2. -/
theorem c2_witness :
    scrape_anjuke_items "新房" none none none "t" [c2witemA] [] =
      scrape_anjuke_items "新房" none none none "t" [] [] ∧
    (AnjukeRecord.mk "未知" "未知" "未知" "未知" "未知" "未知" "安居客" "新房" "t").price = "未知" :=
  ⟨c2_amended.1 c2witemA [] [] "新房" "t" none none none "boom" rfl,
   c2_amended.2 c2witemB "新房" "t" none none none _ (fun _ => ⟨none, rfl⟩) rfl rfl⟩

/-! ## Shape lemmas for the numeric fields (claim C9) -/

/-- A numeric-looking extracted value: non-empty, leading digit, rest
digits or dots (the shape `\d+\.?\d*` can produce, e.g. `123` or `12.5`
or `123.`). -/
def numLike (cs : List Char) : Bool :=
  match cs with
  | [] => false
  | c :: rest => c.isDigit && rest.all isDigitOrDot

/-- A recovered build year is `未知` or a 4-digit string. -/
def YearShape (s : String) : Prop :=
  s = "未知" ∨ (s.data.length = 4 ∧ s.data.all Char.isDigit = true)

theorem digitRun_fst_all : ∀ cs : List Char, (digitRun cs).1.all Char.isDigit = true := by
  intro cs
  induction cs with
  | nil => rfl
  | cons c rest ih =>
    simp only [digitRun]
    by_cases h : c.isDigit
    · simp [h, ih]
    · simp [h]

theorem all_digit_imp_dot (l : List Char) (h : l.all Char.isDigit = true) :
    l.all isDigitOrDot = true := by
  rw [List.all_eq_true] at h ⊢
  intro c hc
  simp [isDigitOrDot, h c hc]

theorem numLike_of_shape (d1 d2 : List Char) (h1 : d1.all Char.isDigit = true)
    (hne : d1 ≠ []) (h2 : d2.all Char.isDigit = true) (g : List Char)
    (hg : g = d1 ∨ g = d1 ++ '.' :: d2) : numLike g = true := by
  cases d1 with
  | nil => exact absurd rfl hne
  | cons c r =>
    rw [List.all_cons, Bool.and_eq_true] at h1
    rcases hg with hg | hg <;> subst hg
    · simp [numLike, h1.1, all_digit_imp_dot r h1.2]
    · simp [numLike, h1.1, List.all_append, List.all_cons,
        all_digit_imp_dot r h1.2, all_digit_imp_dot d2 h2, isDigitOrDot]

theorem numGroupAt_inv (cs g rest : List Char) (h : numGroupAt cs = some (g, rest)) :
    ∃ d1 d2 : List Char, d1.all Char.isDigit = true ∧ d1 ≠ [] ∧
      d2.all Char.isDigit = true ∧ (g = d1 ∨ g = d1 ++ '.' :: d2) := by
  unfold numGroupAt at h
  dsimp only at h
  split at h
  · exact Option.noConfusion h
  · rename_i hne
    have hne2 : (digitRun cs).1 ≠ [] := by
      intro hnil
      apply hne
      rw [hnil]
      rfl
    split at h
    · rename_i r2 hm2
      injection h with hpair
      injection hpair with hg hr
      exact ⟨(digitRun cs).1, (digitRun r2).1, digitRun_fst_all cs, hne2,
        digitRun_fst_all r2, Or.inr hg.symm⟩
    · injection h with hpair
      injection hpair with hg hr
      exact ⟨(digitRun cs).1, [], digitRun_fst_all cs, hne2, rfl, Or.inl hg.symm⟩

theorem numGroupAt_numLike (cs g rest : List Char) (h : numGroupAt cs = some (g, rest)) :
    numLike g = true := by
  obtain ⟨d1, d2, h1, hne, h2, hg⟩ := numGroupAt_inv cs g rest h
  exact numLike_of_shape d1 d2 h1 hne h2 g hg

theorem matchAreaAt_shape (cls : Char → Bool) (cs g : List Char)
    (h : matchAreaAt cls cs = some g) : numLike g = true := by
  unfold matchAreaAt at h
  split at h
  · exact Option.noConfusion h
  · rename_i g0 rest0 hm
    split at h
    · rename_i c tl hsk
      split at h
      · injection h with hg
        subst hg
        exact numGroupAt_numLike cs g0 rest0 hm
      · exact Option.noConfusion h
    · exact Option.noConfusion h

theorem areaSearch1_shape : ∀ cs g, areaSearch1 cs = some g → numLike g = true := by
  intro cs
  induction cs with
  | nil => intro g h; exact Option.noConfusion h
  | cons c rest ih =>
    intro g h
    simp only [areaSearch1] at h
    cases hm : matchAreaAt isPingChar (c :: rest) with
    | some g0 =>
      rw [hm] at h
      injection h with hg
      subst hg
      exact matchAreaAt_shape isPingChar (c :: rest) g0 hm
    | none =>
      rw [hm] at h
      exact ih g h

theorem areaSearch2_shape : ∀ cs g, areaSearch2 cs = some g → numLike g = true := by
  intro cs
  induction cs with
  | nil => intro g h; exact Option.noConfusion h
  | cons c rest ih =>
    intro g h
    simp only [areaSearch2] at h
    cases hm : matchAreaAt isPingChar2 (c :: rest) with
    | some g0 =>
      rw [hm] at h
      injection h with hg
      subst hg
      exact matchAreaAt_shape isPingChar2 (c :: rest) g0 hm
    | none =>
      rw [hm] at h
      exact ih g h

theorem take4Digits_inv (cs g rest : List Char) (h : take4Digits cs = some (g, rest)) :
    g.length = 4 ∧ g.all Char.isDigit = true := by
  unfold take4Digits at h
  split at h
  · rename_i c1 c2 c3 c4 rest2
    split at h
    · rename_i hd
      injection h with hpair
      injection hpair with hg hr
      subst hg
      simp only [Bool.and_eq_true] at hd
      refine ⟨rfl, ?_⟩
      simp [List.all_cons, hd.1.1.1, hd.1.1.2, hd.1.2, hd.2]
    · exact Option.noConfusion h
  · exact Option.noConfusion h

theorem matchYearAt_shape (cs g : List Char) (h : matchYearAt cs = some g) :
    g.length = 4 ∧ g.all Char.isDigit = true := by
  unfold matchYearAt at h
  split at h
  · exact Option.noConfusion h
  · rename_i g0 rest hm
    split at h
    · injection h with hg
      subst hg
      exact take4Digits_inv cs g0 _ hm
    · exact Option.noConfusion h

theorem matchYearNSAt_shape (cs g : List Char) (h : matchYearNSAt cs = some g) :
    g.length = 4 ∧ g.all Char.isDigit = true := by
  unfold matchYearNSAt at h
  split at h
  · exact Option.noConfusion h
  · rename_i g0 rest hm
    split at h
    · injection h with hg
      subst hg
      exact take4Digits_inv cs g0 _ hm
    · exact Option.noConfusion h

theorem yearSearch_shape : ∀ cs g, yearSearch cs = some g →
    g.length = 4 ∧ g.all Char.isDigit = true := by
  intro cs
  induction cs with
  | nil => intro g h; exact Option.noConfusion h
  | cons c rest ih =>
    intro g h
    simp only [yearSearch] at h
    cases hm : matchYearAt (c :: rest) with
    | some g0 =>
      rw [hm] at h
      injection h with hg
      subst hg
      exact matchYearAt_shape (c :: rest) g0 hm
    | none =>
      rw [hm] at h
      exact ih g h

theorem yearSearchNS_shape : ∀ cs g, yearSearchNS cs = some g →
    g.length = 4 ∧ g.all Char.isDigit = true := by
  intro cs
  induction cs with
  | nil => intro g h; exact Option.noConfusion h
  | cons c rest ih =>
    intro g h
    simp only [yearSearchNS] at h
    cases hm : matchYearNSAt (c :: rest) with
    | some g0 =>
      rw [hm] at h
      injection h with hg
      subst hg
      exact matchYearNSAt_shape (c :: rest) g0 hm
    | none =>
      rw [hm] at h
      exact ih g h
theorem anjuke_area_shape (item : AnjukeItem) (v : String)
    (h : anjuke_area item = .ok v) :
    v = "未知" ∨ numLike v.data = true := by
  unfold anjuke_area at h
  cases hch : chainSelect item.selOne anjuke_area_selectors with
  | error e =>
    rw [hch] at h
    simp only [except_bind_err] at h
    exact Except.noConfusion h
  | ok w =>
    rw [hch] at h
    simp only [except_bind_ok] at h
    cases w with
    | none =>
      dsimp only at h
      cases hm2 : areaSearch2 item.text.data with
      | some g =>
        rw [hm2] at h
        right
        rw [← Except.ok.inj h]
        exact areaSearch2_shape item.text.data g hm2
      | none =>
        rw [hm2] at h
        left
        exact (Except.ok.inj h).symm
    | some t =>
      dsimp only at h
      repeat split at h
      all_goals
        first
        | exact Or.inl (Except.ok.inj h).symm
        | (right
           rw [← Except.ok.inj h]
           solve_by_elim [areaSearch1_shape, areaSearch2_shape])
        | (cases hm1 : areaSearch1 (pyStrip t).data with
           | some g1 =>
             rw [hm1] at h
             right
             rw [← Except.ok.inj h]
             exact areaSearch1_shape (pyStrip t).data g1 hm1
           | none =>
             rw [hm1] at h
             left
             exact (Except.ok.inj h).symm)
        | (cases hm2 : areaSearch2 item.text.data with
           | some g2 =>
             rw [hm2] at h
             right
             rw [← Except.ok.inj h]
             exact areaSearch2_shape item.text.data g2 hm2
           | none =>
             rw [hm2] at h
             left
             exact (Except.ok.inj h).symm)

theorem anjuke_year_chain_shape (q : String → Except String (Option String)) :
    ∀ sels v, anjuke_year_chain q sels = .ok v → YearShape v := by
  intro sels
  induction sels with
  | nil =>
    intro v h
    left
    exact (Except.ok.inj h).symm
  | cons s rest ih =>
    intro v h
    unfold anjuke_year_chain at h
    cases hq : q s with
    | error e =>
      rw [hq] at h
      simp only [except_bind_err] at h
      exact Except.noConfusion h
    | ok w =>
      rw [hq] at h
      simp only [except_bind_ok] at h
      cases w with
      | none => exact ih v h
      | some t =>
        dsimp only at h
        cases hy : yearSearch (pyStrip t).data with
        | some g =>
          rw [hy] at h
          right
          rw [← Except.ok.inj h]
          exact yearSearch_shape (pyStrip t).data g hy
        | none =>
          rw [hy] at h
          exact ih v h

theorem anjuke_year_shape (item : AnjukeItem) (v : String)
    (h : anjuke_year item = .ok v) : YearShape v := by
  unfold anjuke_year at h
  cases hc : anjuke_year_chain item.selOne anjuke_year_selectors with
  | error e =>
    rw [hc] at h
    simp only [except_bind_err] at h
    exact Except.noConfusion h
  | ok y =>
    rw [hc] at h
    simp only [except_bind_ok] at h
    split at h
    · cases hy : yearSearch item.text.data with
      | some g =>
        rw [hy] at h
        right
        rw [← Except.ok.inj h]
        exact yearSearch_shape item.text.data g hy
      | none =>
        rw [hy] at h
        left
        exact (Except.ok.inj h).symm
    · rw [← Except.ok.inj h]
      exact anjuke_year_chain_shape item.selOne anjuke_year_selectors y hc

theorem firstYearTagNS_shape : ∀ tags, YearShape (firstYearTagNS tags) := by
  intro tags
  induction tags with
  | nil => left; rfl
  | cons t rest ih =>
    unfold firstYearTagNS
    cases hy : yearSearchNS t.data with
    | some g =>
      right
      exact yearSearchNS_shape t.data g hy
    | none => exact ih

/-- The per-record invariant established by the anjuke extractor: fixed
platform, the request's listing type and capture time, and numeric-shaped
(or `未知`) area and build-year fields. -/
def AnjukeRecInv (house_type now : String) (r : AnjukeRecord) : Prop :=
  r.platform = "安居客" ∧ r.listingType = house_type ∧ r.crawlTime = now ∧
  (r.area = "未知" ∨ numLike r.area.data = true) ∧ YearShape r.buildYear

theorem extract_anjuke_inv (item : AnjukeItem) (ht : String)
    (bn ln by_ : Option Nat) (now : String) (r : AnjukeRecord)
    (h : extract_anjuke_item item ht bn ln by_ now = .ok (some r)) :
    AnjukeRecInv ht now r := by
  unfold extract_anjuke_item at h
  cases h1 : anjuke_name item with
  | error e => rw [h1] at h; simp only [except_bind_err] at h; exact Except.noConfusion h
  | ok vn =>
  rw [h1] at h
  simp only [except_bind_ok] at h
  cases h2 : anjuke_price item with
  | error e => rw [h2] at h; simp only [except_bind_err] at h; exact Except.noConfusion h
  | ok vp =>
  rw [h2] at h
  simp only [except_bind_ok] at h
  cases h3 : anjuke_location item with
  | error e => rw [h3] at h; simp only [except_bind_err] at h; exact Except.noConfusion h
  | ok vl =>
  rw [h3] at h
  simp only [except_bind_ok] at h
  cases h4 : anjuke_housetype item with
  | error e => rw [h4] at h; simp only [except_bind_err] at h; exact Except.noConfusion h
  | ok vh =>
  rw [h4] at h
  simp only [except_bind_ok] at h
  cases hfil : anjuke_room_filter bn ln item.text vh with
  | none =>
    rw [hfil] at h
    exact Option.noConfusion (Except.ok.inj h)
  | some htx2 =>
  rw [hfil] at h
  cases h5 : anjuke_area item with
  | error e => rw [h5] at h; simp only [except_bind_err] at h; exact Except.noConfusion h
  | ok va =>
  rw [h5] at h
  simp only [except_bind_ok] at h
  cases h6 : anjuke_year item with
  | error e => rw [h6] at h; simp only [except_bind_err] at h; exact Except.noConfusion h
  | ok vy =>
  rw [h6] at h
  simp only [except_bind_ok] at h
  cases hre : anjuke_year_reject by_ vy with
  | true =>
    rw [hre] at h
    exact Option.noConfusion (Except.ok.inj h)
  | false =>
    rw [hre] at h
    have h7 := Option.some.inj (Except.ok.inj h)
    rw [← h7]
    exact ⟨rfl, rfl, rfl, anjuke_area_shape item va h5, anjuke_year_shape item vy h6⟩

theorem extract_58new_inv (item : Item58) (ht city : String)
    (bn ln by_ : Option Nat) (now : String) (r : Record58)
    (h : extract_58new_item item ht city bn ln by_ now = .ok (some r)) :
    r.platform = "58同城" ∧ r.houseType = ht ∧ r.city = city ∧
      r.crawlTime = now ∧ YearShape r.buildYear := by
  unfold extract_58new_item at h
  cases h1 : item.selOne ".lp-name" with
  | error e => rw [h1] at h; simp only [except_bind_err] at h; exact Except.noConfusion h
  | ok v1 =>
  rw [h1] at h
  simp only [except_bind_ok] at h
  cases h2 : item.selOne ".price" with
  | error e => rw [h2] at h; simp only [except_bind_err] at h; exact Except.noConfusion h
  | ok v2 =>
  rw [h2] at h
  simp only [except_bind_ok] at h
  cases h3 : item.selOne ".address" with
  | error e => rw [h3] at h; simp only [except_bind_err] at h; exact Except.noConfusion h
  | ok v3 =>
  rw [h3] at h
  simp only [except_bind_ok] at h
  split at h
  · exact Option.noConfusion (Except.ok.inj h)
  · split at h
    · exact Option.noConfusion (Except.ok.inj h)
    · have h7 := Option.some.inj (Except.ok.inj h)
      rw [← h7]
      exact ⟨rfl, rfl, rfl, rfl, firstYearTagNS_shape (item.selAll ".tag-panel span")⟩
theorem scrape_anjuke_items_inv (ht : String) (bn ln by_ : Option Nat) (now : String) :
    ∀ (items : List AnjukeItem) (store : List AnjukeRecord),
      (∀ r ∈ store, AnjukeRecInv ht now r) →
      ∀ r ∈ scrape_anjuke_items ht bn ln by_ now items store, AnjukeRecInv ht now r := by
  intro items
  induction items with
  | nil => intro store hs r hr; exact hs r hr
  | cons item rest ih =>
    intro store hs r hr
    unfold scrape_anjuke_items at hr
    cases hex : extract_anjuke_item item ht bn ln by_ now with
    | ok w =>
      cases w with
      | some rec =>
        rw [hex] at hr
        refine ih (store ++ [rec]) ?_ r hr
        intro r2 hr2
        rcases List.mem_append.mp hr2 with h1 | h1
        · exact hs r2 h1
        · rw [List.mem_singleton] at h1
          subst h1
          exact extract_anjuke_inv item ht bn ln by_ now r2 hex
      | none =>
        rw [hex] at hr
        exact ih store hs r hr
    | error e =>
      rw [hex] at hr
      exact ih store hs r hr

theorem anjuke_parse_phase_inv (ht : String) (bn ln by_ : Option Nat) (now : String)
    (fr : FetchResult AnjukeItem) (st : ScrapeSt AnjukeRecord) (rc : Nat)
    (hst : ∀ r ∈ st.store, AnjukeRecInv ht now r) :
    ∀ r ∈ (anjuke_parse_phase ht bn ln by_ now fr st rc).1.store, AnjukeRecInv ht now r := by
  intro r hr
  unfold anjuke_parse_phase at hr
  dsimp only at hr
  split at hr
  · exact hst r hr
  · exact scrape_anjuke_items_inv ht bn ln by_ now _ st.store hst r hr

theorem anjuke_status_phase_inv (env : ScrapeEnv AnjukeItem) (ht : String)
    (bn ln by_ : Option Nat) (page : Nat) (fr : FetchResult AnjukeItem)
    (st : ScrapeSt AnjukeRecord) (rc : Nat)
    (hst : ∀ r ∈ st.store, AnjukeRecInv ht env.now r) :
    ∀ r ∈ (anjuke_status_phase env ht bn ln by_ page fr st rc).1.store,
      AnjukeRecInv ht env.now r := by
  intro r hr
  unfold anjuke_status_phase at hr
  dsimp only at hr
  split at hr
  · split at hr
    · split at hr
      · split at hr
        · exact hst r hr
        · refine anjuke_parse_phase_inv ht bn ln by_ env.now _ _ rc ?_ r hr
          exact hst
      · exact hst r hr
    · exact anjuke_parse_phase_inv ht bn ln by_ env.now fr st rc hst r hr
  · exact hst r hr

theorem anjuke_iter_inv (env : ScrapeEnv AnjukeItem) (ht : String)
    (bn ln by_ : Option Nat) (page : Nat) (st : ScrapeSt AnjukeRecord) (rc : Nat)
    (hst : ∀ r ∈ st.store, AnjukeRecInv ht env.now r) :
    ∀ r ∈ (anjuke_iter env ht bn ln by_ page st rc).1.store, AnjukeRecInv ht env.now r := by
  intro r hr
  unfold anjuke_iter at hr
  dsimp only at hr
  split at hr
  · exact hst r hr
  · split at hr
    · split at hr
      · split at hr
        · exact hst r hr
        · split at hr
          · exact hst r hr
          · refine anjuke_status_phase_inv env ht bn ln by_ page _ _ rc ?_ r hr
            exact hst
      · exact hst r hr
    · refine anjuke_status_phase_inv env ht bn ln by_ page _ _ rc ?_ r hr
      exact hst

theorem anjuke_while_inv (env : ScrapeEnv AnjukeItem) (ht : String)
    (bn ln by_ : Option Nat) (page : Nat) :
    ∀ (fuel rc : Nat) (st : ScrapeSt AnjukeRecord),
      (∀ r ∈ st.store, AnjukeRecInv ht env.now r) →
      ∀ r ∈ (anjuke_while env ht bn ln by_ page fuel rc st).store,
        AnjukeRecInv ht env.now r := by
  intro fuel
  induction fuel with
  | zero => intro rc st hst r hr; exact hst r hr
  | succ fuel ih =>
    intro rc st hst r hr
    unfold anjuke_while at hr
    dsimp only at hr
    split at hr
    · split at hr
      · rename_i st1 rc1 heq
        exact anjuke_iter_inv env ht bn ln by_ page st rc hst r (by rw [heq]; exact hr)
      · rename_i st1 rc1 heq
        refine ih rc1 st1 ?_ r hr
        intro r2 hr2
        exact anjuke_iter_inv env ht bn ln by_ page st rc hst r2 (by rw [heq]; exact hr2)
      · rename_i st1 rc1 heq
        refine ih rc1 _ ?_ r hr
        intro r2 hr2
        split at hr2
        · exact anjuke_iter_inv env ht bn ln by_ page st rc hst r2 (by rw [heq]; exact hr2)
        · exact anjuke_iter_inv env ht bn ln by_ page st rc hst r2 (by rw [heq]; exact hr2)
    · exact hst r hr

theorem anjuke_pages_inv (env : ScrapeEnv AnjukeItem) (ht : String)
    (bn ln by_ : Option Nat) :
    ∀ (remaining page : Nat) (st : ScrapeSt AnjukeRecord),
      (∀ r ∈ st.store, AnjukeRecInv ht env.now r) →
      ∀ r ∈ (anjuke_pages env ht bn ln by_ remaining page st).store,
        AnjukeRecInv ht env.now r := by
  intro remaining
  induction remaining with
  | zero => intro page st hst r hr; exact hst r hr
  | succ remaining ih =>
    intro page st hst r hr
    unfold anjuke_pages at hr
    dsimp only at hr
    refine ih (page + 1) _ ?_ r hr
    intro r2 hr2
    exact anjuke_while_inv env ht bn ln by_ page max_retries 0 st hst r2 hr2

/-! ## Claim theorems: C9 -/

def c9item : AnjukeItem :=
  { selOne := fun s => if s == ".price" then .ok (some "面议") else .ok none,
    linkTexts := [], text := "好房" }

def c9item58 : Item58 :=
  { selOne := fun _ => .ok none, selAll := fun _ => [], text := "x" }

/-- C9 — counterexample.  The price field of an appended record need not
be a parsed numeric value nor `未知`: a node whose price selector text is
`面议` ("negotiable") yields a record whose `价格` is `面议`, which contains
no digit at all; and a 58 new-house node without an area tag yields a
record whose area is the empty string rather than `未知`. -/
theorem c9_counterexample :
    (extract_anjuke_item c9item "二手房" none none none "t" =
      .ok (some { name := "未知", price := "面议", location := "未知", htype := "未知",
                  area := "未知", buildYear := "未知", platform := "安居客",
                  listingType := "二手房", crawlTime := "t" }) ∧
      ("面议" == "未知" || "面议".data.any Char.isDigit) = false) ∧
    extract_58new_item c9item58 "新房" "zz" none none none "t" =
      .ok (some { platform := "58同城", name := "未知", price := "未知", location := "未知",
                  htype := "", area := "", buildYear := "未知", houseType := "新房",
                  city := "zz", crawlTime := "t" }) :=
  ⟨⟨rfl, by decide⟩, rfl⟩

/-- C9 — amended.  Every record the anjuke scrape appends to the store
carries the fixed platform `安居客`, the request's listing type and
capture time, an area that is `未知` or a numeric string, and a build
year that is `未知` or a 4-digit string; every record produced by the 58
new-house extractor carries platform `58同城`, the request's listing type
and city, and a `未知`-or-4-digit build year.  (The price field holds the
extracted text, which need not be numeric; extraction errors only skip
the item — the model is a total function, no exception reaches the
caller.) -/
theorem c9_amended :
    (∀ (env : ScrapeEnv AnjukeItem) (ht : String) (bn ln by_ : Option Nat)
        (page_count : Nat) (r : AnjukeRecord),
      r ∈ (scrape_anjuke_model env ht bn ln by_ page_count).store →
      AnjukeRecInv ht env.now r) ∧
    (∀ (item : Item58) (ht city : String) (bn ln by_ : Option Nat) (now : String)
        (r : Record58),
      extract_58new_item item ht city bn ln by_ now = .ok (some r) →
      r.platform = "58同城" ∧ r.houseType = ht ∧ r.city = city ∧ r.crawlTime = now ∧
        YearShape r.buildYear) := by
  constructor
  · intro env ht bn ln by_ n r hr
    exact anjuke_pages_inv env ht bn ln by_ n 1 initSt
      (fun r2 hr2 => absurd hr2 (List.not_mem_nil r2)) r hr
  · intro item ht city bn ln by_ now r h
    exact extract_58new_inv item ht city bn ln by_ now r h

def c9witem : AnjukeItem :=
  { selOne := fun _ => .ok none, linkTexts := [], text := "好房" }

def c9frW : FetchResult AnjukeItem :=
  { body := "p", status := 200, soupText := String.mk (List.replicate 1000 'a'),
    items := fun _ => [c9witem] }

def c9envW : ScrapeEnv AnjukeItem :=
  { fetch := fun _ => .ok c9frW, handleVerif := fun _ => true,
    rand := fun _ => 1, now := "t" }

def c9recW : AnjukeRecord :=
  { name := "未知", price := "未知", location := "未知", htype := "未知", area := "未知",
    buildYear := "未知", platform := "安居客", listingType := "新房", crawlTime := "t" }

def c9r58W : Record58 :=
  { platform := "58同城", name := "未知", price := "未知", location := "未知",
    htype := "", area := "", buildYear := "未知", houseType := "新房",
    city := "zz", crawlTime := "t" }

set_option maxRecDepth 100000 in
/-- Witness for the amended C9: a one-page scrape that appends exactly
one record, and a concrete 58 new-house extraction. -/
theorem c9_witness :
    AnjukeRecInv "新房" c9envW.now c9recW ∧
    (c9r58W.platform = "58同城" ∧ c9r58W.houseType = "新房" ∧ c9r58W.city = "zz" ∧
      c9r58W.crawlTime = "t" ∧ YearShape c9r58W.buildYear) :=
  ⟨c9_amended.1 c9envW "新房" none none none 1 c9recW (by
      have h : (scrape_anjuke_model c9envW "新房" none none none 1).store = [c9recW] := rfl
      rw [h]
      exact List.mem_singleton_self c9recW),
   c9_amended.2 c9item58 "新房" "zz" none none none "t" c9r58W rfl⟩

/-! ## Claim theorems: C3, C8 -/

def c3fr58 : FetchResult Item58 :=
  { body := "验证码", status := 200, soupText := "", items := fun _ => [] }

def c3env58 : ScrapeEnv Item58 :=
  { fetch := fun _ => .ok c3fr58, handleVerif := fun _ => false,
    rand := fun _ => 1, now := "t" }

def c3frA : FetchResult AnjukeItem :=
  { body := "验证码", status := 200, soupText := "", items := fun _ => [] }

def c3envA : ScrapeEnv AnjukeItem :=
  { fetch := fun _ => .ok c3frA, handleVerif := fun _ => false,
    rand := fun _ => 1, now := "t" }

/-- C3 — the claim states the intended behaviour, but `scrape_58`
violates it: when the challenge handler returns false (skip) on page 1
of a 3-page request, the `break` at line 747 exits the page `for` loop
itself, so pages 2 and 3 are never fetched — even though the code prints
"继续下一页" ("continue to the next page") just before breaking.  In
`scrape_anjuke` the same skip only breaks the inner retry loop, and all
three pages are fetched (one fetch and one verification prompt each),
matching the claim. -/
theorem c3_code_bug :
    (scrape_58_model c3env58 "新房" "zz" none none none 3).trace =
      [Ev.fetchEv 1, Ev.verifEv] ∧
    (scrape_anjuke_model c3envA "新房" none none none 3).trace =
      [Ev.fetchEv 1, Ev.verifEv, Ev.sleepEv 1,
       Ev.fetchEv 2, Ev.verifEv, Ev.sleepEv 1,
       Ev.fetchEv 3, Ev.verifEv, Ev.sleepEv 1] :=
  ⟨rfl, rfl⟩

def c8frZ : FetchResult AnjukeItem :=
  { body := "p", status := 200, soupText := String.mk (List.replicate 1000 'a'),
    items := fun _ => [] }

def c8envZ : ScrapeEnv AnjukeItem :=
  { fetch := fun _ => .ok c8frZ, handleVerif := fun _ => true,
    rand := fun k => k + 5, now := "t" }

set_option maxRecDepth 100000 in
/-- C8 — counterexample.  A page that yields zero listing items on every
attempt is retried WITHOUT any backoff sleep: the zero-items path does
`retry_count += 1; continue`, skipping the backoff at the bottom of the
loop, so the trace holds three back-to-back fetches of page 1 and only
the between-pages sleep — the claim demands a linearly increasing
backoff delay between the attempts. -/
theorem c8_counterexample :
    (scrape_anjuke_model c8envZ "新房" none none none 1).trace =
      [Ev.fetchEv 1, Ev.fetchEv 1, Ev.fetchEv 1, Ev.sleepEv 5] ∧
    (scrape_anjuke_model c8envZ "新房" none none none 1).store = [] :=
  ⟨rfl, rfl⟩

/-- C8 — amended.  The retry loop performs exactly `max_retries = 3`
attempts per page and then moves to the next page (never aborting the
request): on transport errors each retry is preceded by a backoff sleep
of `delay * (retry_count + 1)` — multipliers 2 then 3, linearly
increasing; on zero-items attempts the retry is immediate, with no
backoff sleep between attempts. -/
theorem c8_amended :
    (∀ (env : ScrapeEnv AnjukeItem) (ht : String) (bn ln by_ : Option Nat),
      (∀ k, env.fetch k = .error ()) →
      (scrape_anjuke_model env ht bn ln by_ 2).trace =
        [Ev.fetchEv 1, Ev.sleepEv (env.rand 0 * 2), Ev.fetchEv 1, Ev.sleepEv (env.rand 1 * 3),
         Ev.fetchEv 1, Ev.sleepEv (env.rand 2),
         Ev.fetchEv 2, Ev.sleepEv (env.rand 3 * 2), Ev.fetchEv 2, Ev.sleepEv (env.rand 4 * 3),
         Ev.fetchEv 2, Ev.sleepEv (env.rand 5)] ∧
      (scrape_anjuke_model env ht bn ln by_ 2).store = []) ∧
    (∀ (env : ScrapeEnv AnjukeItem) (fr : FetchResult AnjukeItem) (ht : String)
        (bn ln by_ : Option Nat),
      (∀ k, env.fetch k = .ok fr) →
      check_verification fr.body = false →
      fr.status = 200 →
      1000 ≤ fr.soupText.length →
      (∀ s, fr.items s = []) →
      (scrape_anjuke_model env ht bn ln by_ 2).trace =
        [Ev.fetchEv 1, Ev.fetchEv 1, Ev.fetchEv 1, Ev.sleepEv (env.rand 0),
         Ev.fetchEv 2, Ev.fetchEv 2, Ev.fetchEv 2, Ev.sleepEv (env.rand 1)]) := by
  constructor
  · intro env ht bn ln by_ hf
    constructor <;>
      simp [scrape_anjuke_model, anjuke_pages, anjuke_while, anjuke_iter, max_retries,
        initSt, hf]
  · intro env fr ht bn ln by_ henv hcv hst hlen hitems
    have hlt : ¬ (fr.soupText.length < 1000) := by omega
    simp [scrape_anjuke_model, anjuke_pages, anjuke_while, anjuke_iter, anjuke_status_phase,
      anjuke_parse_phase, max_retries, initSt, henv, hcv, hst, hlt, hitems]

def c8envE : ScrapeEnv AnjukeItem :=
  { fetch := fun _ => .error (), handleVerif := fun _ => true,
    rand := fun k => k + 1, now := "t" }

set_option maxRecDepth 100000 in
/-- Witness for the amended C8 at concrete environments. -/
theorem c8_witness :
    ((scrape_anjuke_model c8envE "新房" none none none 2).trace =
      [Ev.fetchEv 1, Ev.sleepEv (c8envE.rand 0 * 2), Ev.fetchEv 1,
       Ev.sleepEv (c8envE.rand 1 * 3), Ev.fetchEv 1, Ev.sleepEv (c8envE.rand 2),
       Ev.fetchEv 2, Ev.sleepEv (c8envE.rand 3 * 2), Ev.fetchEv 2,
       Ev.sleepEv (c8envE.rand 4 * 3), Ev.fetchEv 2, Ev.sleepEv (c8envE.rand 5)] ∧
     (scrape_anjuke_model c8envE "新房" none none none 2).store = []) ∧
    (scrape_anjuke_model c8envZ "新房" none none none 2).trace =
      [Ev.fetchEv 1, Ev.fetchEv 1, Ev.fetchEv 1, Ev.sleepEv (c8envZ.rand 0),
       Ev.fetchEv 2, Ev.fetchEv 2, Ev.fetchEv 2, Ev.sleepEv (c8envZ.rand 1)] :=
  ⟨c8_amended.1 c8envE "新房" none none none (fun _ => rfl),
   c8_amended.2 c8envZ c8frZ "新房" none none none (fun _ => rfl) (by decide) rfl
     (by rw [show c8frZ.soupText.length = 1000 from rfl]) (fun _ => rfl)⟩
